import Mathlib

/-!
# Verification of the Lattice beam-network assembly pipeline

A shallow embedding, in Lean 4, of the core of the `Tcadart/Lattice` Python
repository (files `src/Point.py`, `src/Beam.py`, `src/Cell.py`,
`src/Lattice.py`, `src/Geometry_Lattice.py`), together with proofs and
refutations of the specified properties of that code.

Modelling conventions:
* Python floats are modelled as rationals (`ℚ`); float literals are taken at
  their decimal value.  Square roots (beam lengths) are expressed with
  `Real.sqrt` applied to rational squared norms inside theorem statements;
  the rounded float value `beam_length = round(sqrt(...), 4)` computed by the
  code enters the relevant definitions as an explicit parameter.
* Python objects with identity (Points and Beams held by Cells) are modelled
  as entries of explicit heaps (`LatticeState.nodes`, `LatticeState.beams`)
  addressed by numeric object references, so that the aliasing of one Point
  object shared by several Beams is preserved.
* Python dictionaries keyed by `Point`/`Beam` objects hash and compare by the
  coordinate values (`Point.__eq__`/`Beam.__eq__`), so they are modelled as
  association lists keyed by coordinate tuples, with insertion shadowing
  earlier entries (Python assignment overwrites).
* An `if/elif` chain producing at most one value is encoded by `chainTag`
  applied to the list of (decided condition, value) pairs in source order.
-/

/-- First-match evaluation of an `if/elif` chain: the value of the first
entry whose condition is `true`, as a singleton list, else `[]`. -/
def chainTag : List (Bool × ℤ) → List ℤ
  | [] => []
  | (b, t) :: rest => if b then [t] else chainTag rest

lemma chainTag_length_le (l : List (Bool × ℤ)) : (chainTag l).length ≤ 1 := by
  induction l with
  | nil => simp [chainTag]
  | cons a rest ih =>
    rcases a with ⟨b, t⟩
    cases b <;> simp [chainTag, ih]

lemma chainTag_eq_nil (l : List (Bool × ℤ)) (h : ∀ p ∈ l, p.1 = false) :
    chainTag l = [] := by
  induction l with
  | nil => rfl
  | cons a rest ih =>
    rcases a with ⟨b, t⟩
    have hb := h (b, t) (by simp)
    simp only at hb
    subst hb
    simp only [chainTag, if_neg Bool.false_ne_true]
    exact ih fun p hp => h p (by simp [hp])

/-- A 3D coordinate triple, the coordinates of a `Point`. -/
structure Vec3 where
  x : ℚ
  y : ℚ
  z : ℚ
deriving DecidableEq, Repr

/-- Componentwise difference of coordinate triples. -/
def vsub (a b : Vec3) : Vec3 := ⟨a.x - b.x, a.y - b.y, a.z - b.z⟩

/-- Componentwise sum of coordinate triples. -/
def vadd (a b : Vec3) : Vec3 := ⟨a.x + b.x, a.y + b.y, a.z + b.z⟩

/-- Scalar multiple of a coordinate triple. -/
def vsmul (t : ℚ) (a : Vec3) : Vec3 := ⟨t * a.x, t * a.y, t * a.z⟩

/-- Squared Euclidean norm of a coordinate triple; `Beam.getLength` in
`Beam.py` is `round(sqrt(normSq), 4)` of the endpoint difference. -/
def normSq (a : Vec3) : ℚ := a.x ^ 2 + a.y ^ 2 + a.z ^ 2

/-- State of one `Point` object (`Point.py`, `Point.__init__`): coordinates,
global index, global tag, cell-local tag, boundary index, the four 6-DOF
state vectors, the global free-DOF index vector and the modification flag.
The optional Gaussian perturbation (`nodeUncertaintySD`) is taken at its
default `0.0`. -/
structure NodeObj where
  x : ℚ
  y : ℚ
  z : ℚ
  index : Option ℕ
  tag : Option (List ℤ)
  localTag : List ℤ
  indexBoundary : Option ℕ
  displacementValue : List ℚ
  reactionForceValue : List ℚ
  appliedForce : List ℚ
  fixedDOF : List ℕ
  globalFreeDOFIndex : List (Option ℕ)
  nodeMod : Bool
deriving DecidableEq, Repr

/-- `Point(x, y, z)`: a fresh Point object with all solver state zeroed,
exactly as `Point.__init__` leaves it. -/
def mkPoint (x y z : ℚ) : NodeObj :=
  { x := x, y := y, z := z
    index := none, tag := none, localTag := [], indexBoundary := none
    displacementValue := [0, 0, 0, 0, 0, 0]
    reactionForceValue := [0, 0, 0, 0, 0, 0]
    appliedForce := [0, 0, 0, 0, 0, 0]
    fixedDOF := [0, 0, 0, 0, 0, 0]
    globalFreeDOFIndex := [none, none, none, none, none, none]
    nodeMod := false }

/-- Default node used for out-of-range heap reads (the Python code never
performs such reads; well-formedness hypotheses rule them out). -/
def defaultNode : NodeObj := mkPoint 0 0 0

/-- The coordinates of a node, the value `Point.__hash__`/`Point.__eq__`
identify a Point object by. -/
def nodeKey (n : NodeObj) : Vec3 := ⟨n.x, n.y, n.z⟩

/-- `Point.__eq__` (`Point.py`): coordinate-wise equality, all other
attributes ignored. -/
def pointEq (p q : NodeObj) : Prop := p.x = q.x ∧ p.y = q.y ∧ p.z = q.z

instance (p q : NodeObj) : Decidable (pointEq p q) := by
  unfold pointEq; infer_instance

/-! ## `Point.tagPoint` (Point.py, lines 85–167)

The classification of a point against a bounding box
`[xMin, xMax, yMin, yMax, zMin, zMax]`.  The source builds the tag list by
three successive `if/elif` chains (faces, then edges, then corners), each
appending at most one id to the list; each chain is encoded by `chainTag`
on its conditions in source order.  The `ValueError` branch for a box of
length ≠ 6 is outside this embedding: the box is passed as six rationals. -/

/-- The face `if/elif` chain of `tagPoint`. -/
def tagFaces (x y z xMin xMax yMin yMax zMin zMax : ℚ) : List ℤ :=
  chainTag [
    (decide (x = xMin ∧ (yMin < y ∧ y < yMax) ∧ (zMin < z ∧ z < zMax)), 12),
    (decide (x = xMax ∧ (yMin < y ∧ y < yMax) ∧ (zMin < z ∧ z < zMax)), 13),
    (decide ((xMin < x ∧ x < xMax) ∧ y = yMin ∧ (zMin < z ∧ z < zMax)), 11),
    (decide ((xMin < x ∧ x < xMax) ∧ y = yMax ∧ (zMin < z ∧ z < zMax)), 14),
    (decide ((xMin < x ∧ x < xMax) ∧ (yMin < y ∧ y < yMax) ∧ z = zMin), 10),
    (decide ((xMin < x ∧ x < xMax) ∧ (yMin < y ∧ y < yMax) ∧ z = zMax), 15)]

/-- The edge `if/elif` chain of `tagPoint`. -/
def tagEdges (x y z xMin xMax yMin yMax zMin zMax : ℚ) : List ℤ :=
  chainTag [
    (decide (x = xMin ∧ y = yMin ∧ (zMin < z ∧ z < zMax)), 102),
    (decide ((xMin < x ∧ x < xMax) ∧ y = yMin ∧ z = zMin), 100),
    (decide (x = xMax ∧ y = yMin ∧ (zMin < z ∧ z < zMax)), 104),
    (decide ((xMin < x ∧ x < xMax) ∧ y = yMin ∧ z = zMax), 108),
    (decide (x = xMin ∧ (yMin < y ∧ y < yMax) ∧ z = zMin), 101),
    (decide (x = xMax ∧ (yMin < y ∧ y < yMax) ∧ z = zMin), 103),
    (decide (x = xMin ∧ y = yMax ∧ (zMin < z ∧ z < zMax)), 106),
    (decide ((xMin < x ∧ x < xMax) ∧ y = yMax ∧ z = zMin), 105),
    (decide (x = xMax ∧ y = yMax ∧ (zMin < z ∧ z < zMax)), 107),
    (decide ((xMin < x ∧ x < xMax) ∧ y = yMax ∧ z = zMax), 111),
    (decide (x = xMin ∧ (yMin < y ∧ y < yMax) ∧ z = zMax), 109),
    (decide (x = xMax ∧ (yMin < y ∧ y < yMax) ∧ z = zMax), 110)]

/-- The corner `if/elif` chain of `tagPoint`. -/
def tagCorners (x y z xMin xMax yMin yMax zMin zMax : ℚ) : List ℤ :=
  chainTag [
    (decide (x = xMin ∧ y = yMin ∧ z = zMin), 1000),
    (decide (x = xMax ∧ y = yMin ∧ z = zMin), 1001),
    (decide (x = xMin ∧ y = yMax ∧ z = zMin), 1002),
    (decide (x = xMax ∧ y = yMax ∧ z = zMin), 1003),
    (decide (x = xMin ∧ y = yMin ∧ z = zMax), 1004),
    (decide (x = xMax ∧ y = yMin ∧ z = zMax), 1005),
    (decide (x = xMin ∧ y = yMax ∧ z = zMax), 1006),
    (decide (x = xMax ∧ y = yMax ∧ z = zMax), 1007)]

/-- `Point.tagPoint`: the face, edge and corner chains appended in source
order. -/
def tagPoint (x y z xMin xMax yMin yMax zMin zMax : ℚ) : List ℤ :=
  tagFaces x y z xMin xMax yMin yMax zMin zMax
    ++ tagEdges x y z xMin xMax yMin yMax zMin zMax
    ++ tagCorners x y z xMin xMax yMin yMax zMin zMax

/-- `tagPoint` of a node against a box given as a 6-tuple. -/
def tagPointNode (n : NodeObj) (box : ℚ × ℚ × ℚ × ℚ × ℚ × ℚ) : List ℤ :=
  tagPoint n.x n.y n.z box.1 box.2.1 box.2.2.1 box.2.2.2.1 box.2.2.2.2.1
    box.2.2.2.2.2

/-- Some face condition fired. -/
def FaceAny (x y z xMin xMax yMin yMax zMin zMax : ℚ) : Prop :=
  (x = xMin ∧ (yMin < y ∧ y < yMax) ∧ (zMin < z ∧ z < zMax)) ∨
  (x = xMax ∧ (yMin < y ∧ y < yMax) ∧ (zMin < z ∧ z < zMax)) ∨
  ((xMin < x ∧ x < xMax) ∧ y = yMin ∧ (zMin < z ∧ z < zMax)) ∨
  ((xMin < x ∧ x < xMax) ∧ y = yMax ∧ (zMin < z ∧ z < zMax)) ∨
  ((xMin < x ∧ x < xMax) ∧ (yMin < y ∧ y < yMax) ∧ z = zMin) ∨
  ((xMin < x ∧ x < xMax) ∧ (yMin < y ∧ y < yMax) ∧ z = zMax)

/-- Some edge condition fired. -/
def EdgeAny (x y z xMin xMax yMin yMax zMin zMax : ℚ) : Prop :=
  (x = xMin ∧ y = yMin ∧ (zMin < z ∧ z < zMax)) ∨
  ((xMin < x ∧ x < xMax) ∧ y = yMin ∧ z = zMin) ∨
  (x = xMax ∧ y = yMin ∧ (zMin < z ∧ z < zMax)) ∨
  ((xMin < x ∧ x < xMax) ∧ y = yMin ∧ z = zMax) ∨
  (x = xMin ∧ (yMin < y ∧ y < yMax) ∧ z = zMin) ∨
  (x = xMax ∧ (yMin < y ∧ y < yMax) ∧ z = zMin) ∨
  (x = xMin ∧ y = yMax ∧ (zMin < z ∧ z < zMax)) ∨
  ((xMin < x ∧ x < xMax) ∧ y = yMax ∧ z = zMin) ∨
  (x = xMax ∧ y = yMax ∧ (zMin < z ∧ z < zMax)) ∨
  ((xMin < x ∧ x < xMax) ∧ y = yMax ∧ z = zMax) ∨
  (x = xMin ∧ (yMin < y ∧ y < yMax) ∧ z = zMax) ∨
  (x = xMax ∧ (yMin < y ∧ y < yMax) ∧ z = zMax)

/-- Some corner condition fired. -/
def CornerAny (x y z xMin xMax yMin yMax zMin zMax : ℚ) : Prop :=
  (x = xMin ∧ y = yMin ∧ z = zMin) ∨ (x = xMax ∧ y = yMin ∧ z = zMin) ∨
  (x = xMin ∧ y = yMax ∧ z = zMin) ∨ (x = xMax ∧ y = yMax ∧ z = zMin) ∨
  (x = xMin ∧ y = yMin ∧ z = zMax) ∨ (x = xMax ∧ y = yMin ∧ z = zMax) ∨
  (x = xMin ∧ y = yMax ∧ z = zMax) ∨ (x = xMax ∧ y = yMax ∧ z = zMax)

lemma tagFaces_eq_nil (x y z a b c d e f : ℚ)
    (h : ¬ FaceAny x y z a b c d e f) :
    tagFaces x y z a b c d e f = [] := by
  unfold FaceAny at h
  have h1 : decide (x = a ∧ (c < y ∧ y < d) ∧ (e < z ∧ z < f)) = false :=
    decide_eq_false fun hc => h (Or.inl hc)
  have h2 : decide (x = b ∧ (c < y ∧ y < d) ∧ (e < z ∧ z < f)) = false :=
    decide_eq_false fun hc => h (Or.inr (Or.inl hc))
  have h3 : decide ((a < x ∧ x < b) ∧ y = c ∧ (e < z ∧ z < f)) = false :=
    decide_eq_false fun hc => h (Or.inr (Or.inr (Or.inl hc)))
  have h4 : decide ((a < x ∧ x < b) ∧ y = d ∧ (e < z ∧ z < f)) = false :=
    decide_eq_false fun hc => h (Or.inr (Or.inr (Or.inr (Or.inl hc))))
  have h5 : decide ((a < x ∧ x < b) ∧ (c < y ∧ y < d) ∧ z = e) = false :=
    decide_eq_false fun hc => h (Or.inr (Or.inr (Or.inr (Or.inr (Or.inl hc)))))
  have h6 : decide ((a < x ∧ x < b) ∧ (c < y ∧ y < d) ∧ z = f) = false :=
    decide_eq_false fun hc => h (Or.inr (Or.inr (Or.inr (Or.inr (Or.inr hc)))))
  simp only [tagFaces, chainTag, h1, h2, h3, h4, h5, h6,
    Bool.false_eq_true, if_false]

lemma tagEdges_eq_nil (x y z a b c d e f : ℚ)
    (h : ¬ EdgeAny x y z a b c d e f) :
    tagEdges x y z a b c d e f = [] := by
  unfold EdgeAny at h
  have h1 : decide (x = a ∧ y = c ∧ (e < z ∧ z < f)) = false :=
    decide_eq_false fun hc => h (Or.inl hc)
  have h2 : decide ((a < x ∧ x < b) ∧ y = c ∧ z = e) = false :=
    decide_eq_false fun hc => h (Or.inr (Or.inl hc))
  have h3 : decide (x = b ∧ y = c ∧ (e < z ∧ z < f)) = false :=
    decide_eq_false fun hc => h (Or.inr (Or.inr (Or.inl hc)))
  have h4 : decide ((a < x ∧ x < b) ∧ y = c ∧ z = f) = false :=
    decide_eq_false fun hc => h (Or.inr (Or.inr (Or.inr (Or.inl hc))))
  have h5 : decide (x = a ∧ (c < y ∧ y < d) ∧ z = e) = false :=
    decide_eq_false fun hc => h (Or.inr (Or.inr (Or.inr (Or.inr (Or.inl hc)))))
  have h6 : decide (x = b ∧ (c < y ∧ y < d) ∧ z = e) = false :=
    decide_eq_false fun hc => h (Or.inr (Or.inr (Or.inr (Or.inr (Or.inr (Or.inl hc))))))
  have h7 : decide (x = a ∧ y = d ∧ (e < z ∧ z < f)) = false :=
    decide_eq_false fun hc => h (Or.inr (Or.inr (Or.inr (Or.inr (Or.inr (Or.inr (Or.inl hc)))))))
  have h8 : decide ((a < x ∧ x < b) ∧ y = d ∧ z = e) = false :=
    decide_eq_false fun hc => h (Or.inr (Or.inr (Or.inr (Or.inr (Or.inr (Or.inr (Or.inr (Or.inl hc))))))))
  have h9 : decide (x = b ∧ y = d ∧ (e < z ∧ z < f)) = false :=
    decide_eq_false fun hc => h (Or.inr (Or.inr (Or.inr (Or.inr (Or.inr (Or.inr (Or.inr (Or.inr (Or.inl hc)))))))))
  have h10 : decide ((a < x ∧ x < b) ∧ y = d ∧ z = f) = false :=
    decide_eq_false fun hc => h (Or.inr (Or.inr (Or.inr (Or.inr (Or.inr (Or.inr (Or.inr (Or.inr (Or.inr (Or.inl hc))))))))))
  have h11 : decide (x = a ∧ (c < y ∧ y < d) ∧ z = f) = false :=
    decide_eq_false fun hc => h (Or.inr (Or.inr (Or.inr (Or.inr (Or.inr (Or.inr (Or.inr (Or.inr (Or.inr (Or.inr (Or.inl hc)))))))))))
  have h12 : decide (x = b ∧ (c < y ∧ y < d) ∧ z = f) = false :=
    decide_eq_false fun hc => h (Or.inr (Or.inr (Or.inr (Or.inr (Or.inr (Or.inr (Or.inr (Or.inr (Or.inr (Or.inr (Or.inr hc)))))))))))
  simp only [tagEdges, chainTag, h1, h2, h3, h4, h5, h6, h7, h8, h9, h10, h11, h12,
    Bool.false_eq_true, if_false]

lemma tagCorners_eq_nil (x y z a b c d e f : ℚ)
    (h : ¬ CornerAny x y z a b c d e f) :
    tagCorners x y z a b c d e f = [] := by
  unfold CornerAny at h
  have h1 : decide (x = a ∧ y = c ∧ z = e) = false :=
    decide_eq_false fun hc => h (Or.inl hc)
  have h2 : decide (x = b ∧ y = c ∧ z = e) = false :=
    decide_eq_false fun hc => h (Or.inr (Or.inl hc))
  have h3 : decide (x = a ∧ y = d ∧ z = e) = false :=
    decide_eq_false fun hc => h (Or.inr (Or.inr (Or.inl hc)))
  have h4 : decide (x = b ∧ y = d ∧ z = e) = false :=
    decide_eq_false fun hc => h (Or.inr (Or.inr (Or.inr (Or.inl hc))))
  have h5 : decide (x = a ∧ y = c ∧ z = f) = false :=
    decide_eq_false fun hc => h (Or.inr (Or.inr (Or.inr (Or.inr (Or.inl hc)))))
  have h6 : decide (x = b ∧ y = c ∧ z = f) = false :=
    decide_eq_false fun hc => h (Or.inr (Or.inr (Or.inr (Or.inr (Or.inr (Or.inl hc))))))
  have h7 : decide (x = a ∧ y = d ∧ z = f) = false :=
    decide_eq_false fun hc => h (Or.inr (Or.inr (Or.inr (Or.inr (Or.inr (Or.inr (Or.inl hc)))))))
  have h8 : decide (x = b ∧ y = d ∧ z = f) = false :=
    decide_eq_false fun hc => h (Or.inr (Or.inr (Or.inr (Or.inr (Or.inr (Or.inr (Or.inr hc)))))))
  simp only [tagCorners, chainTag, h1, h2, h3, h4, h5, h6, h7, h8,
    Bool.false_eq_true, if_false]

/-- A face condition leaves at least two axes strictly interior; an edge
condition puts at least two axes on a bound; they cannot both hold. -/
lemma faceAny_not_edgeAny (x y z a b c d e f : ℚ)
    (hF : FaceAny x y z a b c d e f) : ¬ EdgeAny x y z a b c d e f := by
  intro hE
  rcases hF with ⟨_, ⟨hy1, hy2⟩, hz1, hz2⟩ | ⟨_, ⟨hy1, hy2⟩, hz1, hz2⟩ |
    ⟨⟨hx1, hx2⟩, _, hz1, hz2⟩ | ⟨⟨hx1, hx2⟩, _, hz1, hz2⟩ |
    ⟨⟨hx1, hx2⟩, ⟨hy1, hy2⟩, _⟩ | ⟨⟨hx1, hx2⟩, ⟨hy1, hy2⟩, _⟩ <;>
  rcases hE with ⟨e1, e2, e3⟩ | ⟨e1, e2, e3⟩ | ⟨e1, e2, e3⟩ | ⟨e1, e2, e3⟩ |
    ⟨e1, e2, e3⟩ | ⟨e1, e2, e3⟩ | ⟨e1, e2, e3⟩ | ⟨e1, e2, e3⟩ |
    ⟨e1, e2, e3⟩ | ⟨e1, e2, e3⟩ | ⟨e1, e2, e3⟩ | ⟨e1, e2, e3⟩ <;>
  linarith

/-- A face condition and a corner condition cannot both hold. -/
lemma faceAny_not_cornerAny (x y z a b c d e f : ℚ)
    (hF : FaceAny x y z a b c d e f) : ¬ CornerAny x y z a b c d e f := by
  intro hC
  rcases hF with ⟨_, ⟨hy1, hy2⟩, hz1, hz2⟩ | ⟨_, ⟨hy1, hy2⟩, hz1, hz2⟩ |
    ⟨⟨hx1, hx2⟩, _, hz1, hz2⟩ | ⟨⟨hx1, hx2⟩, _, hz1, hz2⟩ |
    ⟨⟨hx1, hx2⟩, ⟨hy1, hy2⟩, _⟩ | ⟨⟨hx1, hx2⟩, ⟨hy1, hy2⟩, _⟩ <;>
  rcases hC with ⟨c1, c2, c3⟩ | ⟨c1, c2, c3⟩ | ⟨c1, c2, c3⟩ | ⟨c1, c2, c3⟩ |
    ⟨c1, c2, c3⟩ | ⟨c1, c2, c3⟩ | ⟨c1, c2, c3⟩ | ⟨c1, c2, c3⟩ <;>
  linarith

/-- An edge condition and a corner condition cannot both hold. -/
lemma edgeAny_not_cornerAny (x y z a b c d e f : ℚ)
    (hE : EdgeAny x y z a b c d e f) : ¬ CornerAny x y z a b c d e f := by
  intro hC
  rcases hE with ⟨e1, e2, e3a, e3b⟩ | ⟨⟨e1a, e1b⟩, e2, e3⟩ |
    ⟨e1, e2, e3a, e3b⟩ | ⟨⟨e1a, e1b⟩, e2, e3⟩ | ⟨e1, ⟨e2a, e2b⟩, e3⟩ |
    ⟨e1, ⟨e2a, e2b⟩, e3⟩ | ⟨e1, e2, e3a, e3b⟩ | ⟨⟨e1a, e1b⟩, e2, e3⟩ |
    ⟨e1, e2, e3a, e3b⟩ | ⟨⟨e1a, e1b⟩, e2, e3⟩ | ⟨e1, ⟨e2a, e2b⟩, e3⟩ |
    ⟨e1, ⟨e2a, e2b⟩, e3⟩ <;>
  rcases hC with ⟨c1, c2, c3⟩ | ⟨c1, c2, c3⟩ | ⟨c1, c2, c3⟩ | ⟨c1, c2, c3⟩ |
    ⟨c1, c2, c3⟩ | ⟨c1, c2, c3⟩ | ⟨c1, c2, c3⟩ | ⟨c1, c2, c3⟩ <;>
  linarith

/-- A strictly interior point satisfies no face condition. -/
lemma not_faceAny_of_interior (x y z a b c d e f : ℚ)
    (hx1 : a < x) (hx2 : x < b) (hy1 : c < y) (hy2 : y < d)
    (hz1 : e < z) (hz2 : z < f) : ¬ FaceAny x y z a b c d e f := by
  intro hF
  rcases hF with ⟨h, _⟩ | ⟨h, _⟩ | ⟨_, h, _⟩ | ⟨_, h, _⟩ |
    ⟨_, _, h⟩ | ⟨_, _, h⟩ <;> linarith

/-- A strictly interior point satisfies no edge condition. -/
lemma not_edgeAny_of_interior (x y z a b c d e f : ℚ)
    (hx1 : a < x) (hx2 : x < b) (hy1 : c < y) (hy2 : y < d)
    (hz1 : e < z) (hz2 : z < f) : ¬ EdgeAny x y z a b c d e f := by
  intro hE
  rcases hE with ⟨h, _⟩ | ⟨_, _, h⟩ | ⟨h, _⟩ | ⟨_, _, h⟩ | ⟨h, _⟩ | ⟨h, _⟩ |
    ⟨h, _⟩ | ⟨_, _, h⟩ | ⟨h, _⟩ | ⟨_, _, h⟩ | ⟨h, _⟩ | ⟨h, _⟩ <;> linarith

/-- A strictly interior point satisfies no corner condition. -/
lemma not_cornerAny_of_interior (x y z a b c d e f : ℚ)
    (hx1 : a < x) (hx2 : x < b) (hy1 : c < y) (hy2 : y < d)
    (hz1 : e < z) (hz2 : z < f) : ¬ CornerAny x y z a b c d e f := by
  intro hC
  rcases hC with ⟨h, -⟩ | ⟨h, -⟩ | ⟨h, -⟩ | ⟨h, -⟩ | ⟨h, -⟩ | ⟨h, -⟩ |
    ⟨h, -⟩ | ⟨h, -⟩ <;> linarith

/-- **C2.** For every point and every 6-value bounding box, `tagPoint`
returns at most one tag (so a point meeting a corner condition never also
receives an edge or face tag), and a point strictly interior on all three
axes receives the empty tag list. -/
theorem tagPoint_at_most_one_tag (x y z xMin xMax yMin yMax zMin zMax : ℚ) :
    (tagPoint x y z xMin xMax yMin yMax zMin zMax).length ≤ 1 ∧
    (xMin < x → x < xMax → yMin < y → y < yMax → zMin < z → z < zMax →
      tagPoint x y z xMin xMax yMin yMax zMin zMax = []) := by
  constructor
  · unfold tagPoint
    by_cases hF : FaceAny x y z xMin xMax yMin yMax zMin zMax
    · rw [tagEdges_eq_nil _ _ _ _ _ _ _ _ _
          (faceAny_not_edgeAny _ _ _ _ _ _ _ _ _ hF),
        tagCorners_eq_nil _ _ _ _ _ _ _ _ _
          (faceAny_not_cornerAny _ _ _ _ _ _ _ _ _ hF)]
      simpa using chainTag_length_le _
    · rw [tagFaces_eq_nil _ _ _ _ _ _ _ _ _ hF]
      by_cases hE : EdgeAny x y z xMin xMax yMin yMax zMin zMax
      · rw [tagCorners_eq_nil _ _ _ _ _ _ _ _ _
            (edgeAny_not_cornerAny _ _ _ _ _ _ _ _ _ hE)]
        simpa using chainTag_length_le _
      · rw [tagEdges_eq_nil _ _ _ _ _ _ _ _ _ hE]
        simpa using chainTag_length_le _
  · intro h1 h2 h3 h4 h5 h6
    unfold tagPoint
    rw [tagFaces_eq_nil _ _ _ _ _ _ _ _ _
        (not_faceAny_of_interior _ _ _ _ _ _ _ _ _ h1 h2 h3 h4 h5 h6),
      tagEdges_eq_nil _ _ _ _ _ _ _ _ _
        (not_edgeAny_of_interior _ _ _ _ _ _ _ _ _ h1 h2 h3 h4 h5 h6),
      tagCorners_eq_nil _ _ _ _ _ _ _ _ _
        (not_cornerAny_of_interior _ _ _ _ _ _ _ _ _ h1 h2 h3 h4 h5 h6)]
    rfl

/-- Witness for C2 at a concrete interior point of the unit box. -/
theorem tagPoint_at_most_one_tag_witness :
    (tagPoint (1/2) (1/2) (1/2) 0 1 0 1 0 1).length ≤ 1 ∧
    ((0 : ℚ) < 1/2 → (1/2 : ℚ) < 1 → (0 : ℚ) < 1/2 → (1/2 : ℚ) < 1 →
      (0 : ℚ) < 1/2 → (1/2 : ℚ) < 1 →
      tagPoint (1/2) (1/2) (1/2) 0 1 0 1 0 1 = []) :=
  tagPoint_at_most_one_tag (1/2) (1/2) (1/2) 0 1 0 1 0 1

/-! ## `Beam` objects (Beam.py)

Value-level mirror of the `Beam` class for the per-beam claims: the two
endpoint `Point` objects are inlined.  `Beam.__init__` stores the two
endpoints, radius, material and type, leaves `index = None` and
`modBeam = False` and computes `length = round(sqrt(...), 4)` once; that
float length is carried as an explicit parameter wherever it is consumed.
The per-endpoint angle data `angle1`/`angle2` (set later by `setAngle`) is
likewise carried as parameters where consumed. -/
structure BeamP where
  point1 : NodeObj
  point2 : NodeObj
  radius : ℚ
  material : ℤ
  type : ℤ
  index : Option ℕ
  modBeam : Bool
deriving DecidableEq, Repr

/-- `Beam(point1, point2, Radius, Material, Type)`. -/
def mkBeam (p1 p2 : NodeObj) (radius : ℚ) (material : ℤ) (ty : ℤ) : BeamP :=
  { point1 := p1, point2 := p2, radius := radius, material := material
    type := ty, index := none, modBeam := false }

/-- `Beam.__eq__` (Beam.py, lines 38–39): `self.point1 == other.point1 and
self.point2 == other.point2`, with `Point.__eq__` comparing coordinates. -/
def beamEq (b1 b2 : BeamP) : Prop :=
  pointEq b1.point1 b2.point1 ∧ pointEq b1.point2 b2.point2

instance (b1 b2 : BeamP) : Decidable (beamEq b1 b2) := by
  unfold beamEq; infer_instance

/-- The value `Beam.__hash__` (Beam.py, lines 41–42) feeds to Python's
`hash`: the ordered pair `(point1, point2)` reduced to the coordinate
triples that `Point.__hash__` hashes.  Equal keys give equal hashes, since
`hash` is a function of this key. -/
def beamHashKey (b : BeamP) : Vec3 × Vec3 := (nodeKey b.point1, nodeKey b.point2)

/-- **C6 counterexample.**  Two beams with swapped endpoint coordinates
(`b1.point1 == b2.point2` and `b1.point2 == b2.point1` coordinate-wise)
are *not* equal under `Beam.__eq__`: the comparison is positional, so the
claimed undirected identity fails on the concrete pair
`Beam(P(0,0,0), P(1,0,0))`, `Beam(P(1,0,0), P(0,0,0))`. -/
theorem beam_eq_reversed_endpoints_counterexample :
    pointEq (mkBeam (mkPoint 0 0 0) (mkPoint 1 0 0) (1/10) 0 0).point1
      (mkBeam (mkPoint 1 0 0) (mkPoint 0 0 0) (1/10) 0 0).point2 ∧
    pointEq (mkBeam (mkPoint 0 0 0) (mkPoint 1 0 0) (1/10) 0 0).point2
      (mkBeam (mkPoint 1 0 0) (mkPoint 0 0 0) (1/10) 0 0).point1 ∧
    ¬ beamEq (mkBeam (mkPoint 0 0 0) (mkPoint 1 0 0) (1/10) 0 0)
      (mkBeam (mkPoint 1 0 0) (mkPoint 0 0 0) (1/10) 0 0) := by
  refine ⟨⟨rfl, rfl, rfl⟩, ⟨rfl, rfl, rfl⟩, ?_⟩
  intro h
  have := h.1.1
  norm_num [mkBeam, mkPoint] at this

/-- **C6 (amended).**  `Beam.__eq__` and `Beam.__hash__` treat the endpoint
pair as an *ordered* pair: two beams are equal precisely when their first
endpoints agree coordinate-wise and their second endpoints agree
coordinate-wise, and then their hash keys coincide. -/
theorem beam_eq_ordered_pair (b1 b2 : BeamP) :
    (beamEq b1 b2 ↔
      (pointEq b1.point1 b2.point1 ∧ pointEq b1.point2 b2.point2)) ∧
    (beamEq b1 b2 → beamHashKey b1 = beamHashKey b2) := by
  constructor
  · exact Iff.rfl
  · rintro ⟨⟨hx1, hy1, hz1⟩, hx2, hy2, hz2⟩
    unfold beamHashKey nodeKey
    rw [hx1, hy1, hz1, hx2, hy2, hz2]

/-- Witness for C6 applying the theorem to a concrete equal-ordered pair. -/
theorem beam_eq_ordered_pair_witness :
    (beamEq (mkBeam (mkPoint 0 0 0) (mkPoint 1 2 3) (1/10) 0 0)
        (mkBeam (mkPoint 0 0 0) (mkPoint 1 2 3) (2/10) 1 1) ↔
      (pointEq (mkBeam (mkPoint 0 0 0) (mkPoint 1 2 3) (1/10) 0 0).point1
          (mkBeam (mkPoint 0 0 0) (mkPoint 1 2 3) (2/10) 1 1).point1 ∧
        pointEq (mkBeam (mkPoint 0 0 0) (mkPoint 1 2 3) (1/10) 0 0).point2
          (mkBeam (mkPoint 0 0 0) (mkPoint 1 2 3) (2/10) 1 1).point2)) ∧
    (beamEq (mkBeam (mkPoint 0 0 0) (mkPoint 1 2 3) (1/10) 0 0)
        (mkBeam (mkPoint 0 0 0) (mkPoint 1 2 3) (2/10) 1 1) →
      beamHashKey (mkBeam (mkPoint 0 0 0) (mkPoint 1 2 3) (1/10) 0 0) =
        beamHashKey (mkBeam (mkPoint 0 0 0) (mkPoint 1 2 3) (2/10) 1 1)) :=
  beam_eq_ordered_pair _ _

/-! ## `Beam.getPointOnBeamFromDistance` and `Lattice.setBeamNodeMod`
(Beam.py lines 74–112, Lattice.py lines 808–845)

`setBeamNodeMod` rewrites every beam of every cell into three sub-beams
`b1, b2, b3` using the two penalization lengths `getLengthMod()` returns.
Those lengths are computed in the source as
`radius / tan(radians(angle) / 2)` (or `1e-7` above 170°), a transcendental
float expression; they enter this embedding as the rational parameters
`L1`, `L2` (every Python float is a rational).  Likewise the float
`beam_length = round(sqrt(...), 4)` read by `getPointOnBeamFromDistance`
enters as the parameter `beamLength`. -/

/-- `start + (end - start) / beam_length * distance`, componentwise: the
core arithmetic of `getPointOnBeamFromDistance`. -/
def pointOnBeamCore (s e : Vec3) (beamLength distance : ℚ) : Vec3 :=
  ⟨s.x + (e.x - s.x) / beamLength * distance,
   s.y + (e.y - s.y) / beamLength * distance,
   s.z + (e.z - s.z) / beamLength * distance⟩

/-- `Beam.getPointOnBeamFromDistance(distance, pointIndex)`: measures from
`point1` toward `point2` when `pointIndex = 1`, from `point2` toward
`point1` when `pointIndex = 2`, and raises `ValueError` otherwise. -/
def getPointOnBeamFromDistance (b : BeamP) (beamLength distance : ℚ)
    (pointIndex : ℕ) : Except String Vec3 :=
  if pointIndex = 1 then
    Except.ok (pointOnBeamCore (nodeKey b.point1) (nodeKey b.point2)
      beamLength distance)
  else if pointIndex = 2 then
    Except.ok (pointOnBeamCore (nodeKey b.point2) (nodeKey b.point1)
      beamLength distance)
  else Except.error "Point must be 1 or 2."

/-- The per-beam body of `Lattice.setBeamNodeMod` (lines 817–836): two new
intermediate Points flagged `nodeMod`, and the sub-beams
`b1 = Beam(point1, ext1)` and `b3 = Beam(ext2, point2)` flagged `modBeam`
while `b2 = Beam(ext1, ext2)` keeps the plain constructor state; all three
inherit the original radius, material and type. -/
def setBeamNodeModBeam (b : BeamP) (beamLength L1 L2 : ℚ) :
    BeamP × BeamP × BeamP :=
  match getPointOnBeamFromDistance b beamLength L1 1,
      getPointOnBeamFromDistance b beamLength L2 2 with
  | Except.ok pE1, Except.ok pE2 =>
    let pointExt1Obj : NodeObj := { mkPoint pE1.x pE1.y pE1.z with nodeMod := true }
    let pointExt2Obj : NodeObj := { mkPoint pE2.x pE2.y pE2.z with nodeMod := true }
    let b1 : BeamP :=
      { mkBeam b.point1 pointExt1Obj b.radius b.material b.type with modBeam := true }
    let b2 : BeamP := mkBeam pointExt1Obj pointExt2Obj b.radius b.material b.type
    let b3 : BeamP :=
      { mkBeam pointExt2Obj b.point2 b.radius b.material b.type with modBeam := true }
    (b1, b2, b3)
  | _, _ => (b, b, b)

/-- The `pointIndex` arguments being the literals `1` and `2`, the
`ValueError` branch never fires and the rewrite takes its main branch. -/
lemma setBeamNodeModBeam_eq (b : BeamP) (beamLength L1 L2 : ℚ) :
    setBeamNodeModBeam b beamLength L1 L2 =
      (let pE1 := pointOnBeamCore (nodeKey b.point1) (nodeKey b.point2)
        beamLength L1
      let pE2 := pointOnBeamCore (nodeKey b.point2) (nodeKey b.point1)
        beamLength L2
      let pointExt1Obj : NodeObj := { mkPoint pE1.x pE1.y pE1.z with nodeMod := true }
      let pointExt2Obj : NodeObj := { mkPoint pE2.x pE2.y pE2.z with nodeMod := true }
      ({ mkBeam b.point1 pointExt1Obj b.radius b.material b.type with modBeam := true },
       mkBeam pointExt1Obj pointExt2Obj b.radius b.material b.type,
       { mkBeam pointExt2Obj b.point2 b.radius b.material b.type with modBeam := true })) := by
  rfl

/-- The endpoint difference vector of the original beam. -/
def beamVec (b : BeamP) : Vec3 := vsub (nodeKey b.point2) (nodeKey b.point1)

lemma normSq_vsmul (t : ℚ) (v : Vec3) :
    normSq (vsmul t v) = t ^ 2 * normSq v := by
  unfold normSq vsmul; ring

lemma sqrt_normSq_vsmul (t : ℚ) (v : Vec3) (ht : 0 ≤ t) :
    Real.sqrt ((normSq (vsmul t v) : ℚ) : ℝ) =
      (t : ℝ) * Real.sqrt ((normSq v : ℚ) : ℝ) := by
  rw [normSq_vsmul]
  push_cast
  rw [Real.sqrt_mul (by positivity) _, Real.sqrt_sq (by exact_mod_cast ht)]

/-- The point measured from `p1` lies on the line through `p1` and `p2`,
at parameter `d / beamLength`. -/
lemma pointOnBeamCore_from_start (p1 p2 : Vec3) (beamLength d : ℚ) :
    pointOnBeamCore p1 p2 beamLength d =
      vadd p1 (vsmul (d / beamLength) (vsub p2 p1)) := by
  simp only [pointOnBeamCore, vadd, vsmul, vsub, Vec3.mk.injEq]
  refine ⟨by ring, by ring, by ring⟩

/-- The point measured from `p2` lies on the same line, at parameter
`1 - d / beamLength`. -/
lemma pointOnBeamCore_from_end (p1 p2 : Vec3) (beamLength d : ℚ) :
    pointOnBeamCore p2 p1 beamLength d =
      vadd p1 (vsmul (1 - d / beamLength) (vsub p2 p1)) := by
  simp only [pointOnBeamCore, vadd, vsmul, vsub, Vec3.mk.injEq]
  refine ⟨by ring, by ring, by ring⟩

/-- Exact length preservation of the three-way split, for nonnegative
penalization lengths of total at most the measured beam length. -/
lemma split_length_sum (p1 p2 : Vec3) (beamLength L1 L2 : ℚ)
    (hBL : 0 < beamLength) (h1 : 0 ≤ L1) (h2 : 0 ≤ L2)
    (hsum : L1 + L2 ≤ beamLength) :
    Real.sqrt ((normSq (vsub (pointOnBeamCore p1 p2 beamLength L1) p1) : ℚ) : ℝ)
      + Real.sqrt ((normSq (vsub (pointOnBeamCore p2 p1 beamLength L2)
          (pointOnBeamCore p1 p2 beamLength L1)) : ℚ) : ℝ)
      + Real.sqrt ((normSq (vsub p2 (pointOnBeamCore p2 p1 beamLength L2)) : ℚ) : ℝ)
      = Real.sqrt ((normSq (vsub p2 p1) : ℚ) : ℝ) := by
  have hv1 : vsub (pointOnBeamCore p1 p2 beamLength L1) p1 =
      vsmul (L1 / beamLength) (vsub p2 p1) := by
    simp only [pointOnBeamCore, vsub, vsmul, Vec3.mk.injEq]
    refine ⟨by ring, by ring, by ring⟩
  have hvm : vsub (pointOnBeamCore p2 p1 beamLength L2)
      (pointOnBeamCore p1 p2 beamLength L1) =
      vsmul (1 - L1 / beamLength - L2 / beamLength) (vsub p2 p1) := by
    simp only [pointOnBeamCore, vsub, vsmul, Vec3.mk.injEq]
    refine ⟨by ring, by ring, by ring⟩
  have hv3 : vsub p2 (pointOnBeamCore p2 p1 beamLength L2) =
      vsmul (L2 / beamLength) (vsub p2 p1) := by
    simp only [pointOnBeamCore, vsub, vsmul, Vec3.mk.injEq]
    refine ⟨by ring, by ring, by ring⟩
  have ht1 : (0 : ℚ) ≤ L1 / beamLength := div_nonneg h1 hBL.le
  have ht3 : (0 : ℚ) ≤ L2 / beamLength := div_nonneg h2 hBL.le
  have htm : (0 : ℚ) ≤ 1 - L1 / beamLength - L2 / beamLength := by
    have hle : (L1 + L2) / beamLength ≤ 1 := (div_le_one hBL).mpr hsum
    rw [add_div] at hle
    linarith
  rw [hv1, hvm, hv3, sqrt_normSq_vsmul _ _ ht1, sqrt_normSq_vsmul _ _ htm,
    sqrt_normSq_vsmul _ _ ht3]
  have hcoef : ((L1 / beamLength : ℚ) : ℝ)
      + ((1 - L1 / beamLength - L2 / beamLength : ℚ) : ℝ)
      + ((L2 / beamLength : ℚ) : ℝ) = 1 := by
    push_cast
    ring
  nlinarith [Real.sqrt_nonneg ((normSq (vsub p2 p1) : ℚ) : ℝ), hcoef]

/-- **C4 (amended).**  Provided the two penalization lengths are
nonnegative and together do not exceed the measured beam length, the
`setBeamNodeMod` rewrite of a beam gives: `b1` starting at the original
`point1`, `b3` ending at the original `point2`, both intermediate points
exactly on the original beam's line, `b1`/`b3` carrying the modified flag,
the central `b2` unflagged with the original radius, material and type, and
the exact Euclidean lengths of the three sub-beams summing to the original
beam's exact Euclidean length (this is the claim's equality "within
floating tolerance": the stored lengths differ from the exact ones only by
the `round(·, 4)` of `getLength`).  Without the bound `L1 + L2 ≤
beamLength` the length sum fails, see the counterexample. -/
theorem setBeamNodeMod_split_properties (b : BeamP) (beamLength L1 L2 : ℚ)
    (hBL : 0 < beamLength) (h1 : 0 ≤ L1) (h2 : 0 ≤ L2)
    (hsum : L1 + L2 ≤ beamLength) :
    (setBeamNodeModBeam b beamLength L1 L2).1.point1 = b.point1 ∧
    (setBeamNodeModBeam b beamLength L1 L2).2.2.point2 = b.point2 ∧
    (∃ t : ℚ, nodeKey (setBeamNodeModBeam b beamLength L1 L2).1.point2 =
      vadd (nodeKey b.point1) (vsmul t (beamVec b))) ∧
    (∃ u : ℚ, nodeKey (setBeamNodeModBeam b beamLength L1 L2).2.2.point1 =
      vadd (nodeKey b.point1) (vsmul u (beamVec b))) ∧
    (setBeamNodeModBeam b beamLength L1 L2).1.modBeam = true ∧
    (setBeamNodeModBeam b beamLength L1 L2).2.2.modBeam = true ∧
    (setBeamNodeModBeam b beamLength L1 L2).2.1.modBeam = false ∧
    (setBeamNodeModBeam b beamLength L1 L2).2.1.radius = b.radius ∧
    (setBeamNodeModBeam b beamLength L1 L2).2.1.material = b.material ∧
    (setBeamNodeModBeam b beamLength L1 L2).2.1.type = b.type ∧
    Real.sqrt ((normSq (vsub
        (nodeKey (setBeamNodeModBeam b beamLength L1 L2).1.point2)
        (nodeKey (setBeamNodeModBeam b beamLength L1 L2).1.point1)) : ℚ) : ℝ)
      + Real.sqrt ((normSq (vsub
        (nodeKey (setBeamNodeModBeam b beamLength L1 L2).2.1.point2)
        (nodeKey (setBeamNodeModBeam b beamLength L1 L2).2.1.point1)) : ℚ) : ℝ)
      + Real.sqrt ((normSq (vsub
        (nodeKey (setBeamNodeModBeam b beamLength L1 L2).2.2.point2)
        (nodeKey (setBeamNodeModBeam b beamLength L1 L2).2.2.point1)) : ℚ) : ℝ)
      = Real.sqrt ((normSq (beamVec b) : ℚ) : ℝ) := by
  rw [setBeamNodeModBeam_eq]
  dsimp only [nodeKey, mkPoint, mkBeam]
  refine ⟨rfl, rfl, ⟨L1 / beamLength, ?_⟩, ⟨1 - L2 / beamLength, ?_⟩,
    rfl, rfl, rfl, rfl, rfl, rfl, ?_⟩
  · exact pointOnBeamCore_from_start _ _ _ _
  · exact pointOnBeamCore_from_end _ _ _ _
  · exact split_length_sum _ _ _ _ _ hBL h1 h2 hsum

/-- **C4 counterexample.**  On the unit beam from `(0,0,0)` to `(1,0,0)`
(exact stored length 1, since `round(sqrt(1), 4) = 1`) with penalization
lengths `L1 = L2 = 1` — produced by `functionPenalizationLzone` for
radius 1 and angle 90°, as `1 / tan(45°) = 1` — the three sub-beam lengths
sum to 3 while the original length is 1: the claimed length preservation
fails far beyond any floating tolerance. -/
theorem penalization_length_sum_counterexample :
    Real.sqrt ((normSq (vsub
        (nodeKey (setBeamNodeModBeam
          (mkBeam (mkPoint 0 0 0) (mkPoint 1 0 0) 1 0 0) 1 1 1).1.point2)
        (nodeKey (setBeamNodeModBeam
          (mkBeam (mkPoint 0 0 0) (mkPoint 1 0 0) 1 0 0) 1 1 1).1.point1)) : ℚ) : ℝ)
      + Real.sqrt ((normSq (vsub
        (nodeKey (setBeamNodeModBeam
          (mkBeam (mkPoint 0 0 0) (mkPoint 1 0 0) 1 0 0) 1 1 1).2.1.point2)
        (nodeKey (setBeamNodeModBeam
          (mkBeam (mkPoint 0 0 0) (mkPoint 1 0 0) 1 0 0) 1 1 1).2.1.point1)) : ℚ) : ℝ)
      + Real.sqrt ((normSq (vsub
        (nodeKey (setBeamNodeModBeam
          (mkBeam (mkPoint 0 0 0) (mkPoint 1 0 0) 1 0 0) 1 1 1).2.2.point2)
        (nodeKey (setBeamNodeModBeam
          (mkBeam (mkPoint 0 0 0) (mkPoint 1 0 0) 1 0 0) 1 1 1).2.2.point1)) : ℚ) : ℝ)
      = 3 ∧
    Real.sqrt ((normSq (beamVec
        (mkBeam (mkPoint 0 0 0) (mkPoint 1 0 0) 1 0 0)) : ℚ) : ℝ) = 1 := by
  have e1 : normSq (vsub
      (nodeKey (setBeamNodeModBeam
        (mkBeam (mkPoint 0 0 0) (mkPoint 1 0 0) 1 0 0) 1 1 1).1.point2)
      (nodeKey (setBeamNodeModBeam
        (mkBeam (mkPoint 0 0 0) (mkPoint 1 0 0) 1 0 0) 1 1 1).1.point1)) = 1 := by
    norm_num [setBeamNodeModBeam_eq, pointOnBeamCore, normSq, vsub, nodeKey,
      mkBeam, mkPoint, beamVec]
  have e2 : normSq (vsub
      (nodeKey (setBeamNodeModBeam
        (mkBeam (mkPoint 0 0 0) (mkPoint 1 0 0) 1 0 0) 1 1 1).2.1.point2)
      (nodeKey (setBeamNodeModBeam
        (mkBeam (mkPoint 0 0 0) (mkPoint 1 0 0) 1 0 0) 1 1 1).2.1.point1)) = 1 := by
    norm_num [setBeamNodeModBeam_eq, pointOnBeamCore, normSq, vsub, nodeKey,
      mkBeam, mkPoint, beamVec]
  have e3 : normSq (vsub
      (nodeKey (setBeamNodeModBeam
        (mkBeam (mkPoint 0 0 0) (mkPoint 1 0 0) 1 0 0) 1 1 1).2.2.point2)
      (nodeKey (setBeamNodeModBeam
        (mkBeam (mkPoint 0 0 0) (mkPoint 1 0 0) 1 0 0) 1 1 1).2.2.point1)) = 1 := by
    norm_num [setBeamNodeModBeam_eq, pointOnBeamCore, normSq, vsub, nodeKey,
      mkBeam, mkPoint, beamVec]
  have e0 : normSq (beamVec (mkBeam (mkPoint 0 0 0) (mkPoint 1 0 0) 1 0 0)) = 1 := by
    norm_num [normSq, vsub, nodeKey, mkBeam, mkPoint, beamVec]
  rw [e1, e2, e3, e0]
  norm_num [Real.sqrt_one]

/-- Witness for C4 on the unit beam with small penalization lengths. -/
theorem setBeamNodeMod_split_properties_witness :
    (setBeamNodeModBeam (mkBeam (mkPoint 0 0 0) (mkPoint 1 0 0) (1/10) 0 0)
      1 (1/4) (1/4)).1.point1 =
      (mkBeam (mkPoint 0 0 0) (mkPoint 1 0 0) (1/10) 0 0).point1 ∧
    (setBeamNodeModBeam (mkBeam (mkPoint 0 0 0) (mkPoint 1 0 0) (1/10) 0 0)
      1 (1/4) (1/4)).2.2.point2 =
      (mkBeam (mkPoint 0 0 0) (mkPoint 1 0 0) (1/10) 0 0).point2 ∧
    (∃ t : ℚ, nodeKey (setBeamNodeModBeam
        (mkBeam (mkPoint 0 0 0) (mkPoint 1 0 0) (1/10) 0 0)
        1 (1/4) (1/4)).1.point2 =
      vadd (nodeKey (mkBeam (mkPoint 0 0 0) (mkPoint 1 0 0) (1/10) 0 0).point1)
        (vsmul t (beamVec (mkBeam (mkPoint 0 0 0) (mkPoint 1 0 0) (1/10) 0 0)))) ∧
    (∃ u : ℚ, nodeKey (setBeamNodeModBeam
        (mkBeam (mkPoint 0 0 0) (mkPoint 1 0 0) (1/10) 0 0)
        1 (1/4) (1/4)).2.2.point1 =
      vadd (nodeKey (mkBeam (mkPoint 0 0 0) (mkPoint 1 0 0) (1/10) 0 0).point1)
        (vsmul u (beamVec (mkBeam (mkPoint 0 0 0) (mkPoint 1 0 0) (1/10) 0 0)))) ∧
    (setBeamNodeModBeam (mkBeam (mkPoint 0 0 0) (mkPoint 1 0 0) (1/10) 0 0)
      1 (1/4) (1/4)).1.modBeam = true ∧
    (setBeamNodeModBeam (mkBeam (mkPoint 0 0 0) (mkPoint 1 0 0) (1/10) 0 0)
      1 (1/4) (1/4)).2.2.modBeam = true ∧
    (setBeamNodeModBeam (mkBeam (mkPoint 0 0 0) (mkPoint 1 0 0) (1/10) 0 0)
      1 (1/4) (1/4)).2.1.modBeam = false ∧
    (setBeamNodeModBeam (mkBeam (mkPoint 0 0 0) (mkPoint 1 0 0) (1/10) 0 0)
      1 (1/4) (1/4)).2.1.radius =
      (mkBeam (mkPoint 0 0 0) (mkPoint 1 0 0) (1/10) 0 0).radius ∧
    (setBeamNodeModBeam (mkBeam (mkPoint 0 0 0) (mkPoint 1 0 0) (1/10) 0 0)
      1 (1/4) (1/4)).2.1.material =
      (mkBeam (mkPoint 0 0 0) (mkPoint 1 0 0) (1/10) 0 0).material ∧
    (setBeamNodeModBeam (mkBeam (mkPoint 0 0 0) (mkPoint 1 0 0) (1/10) 0 0)
      1 (1/4) (1/4)).2.1.type =
      (mkBeam (mkPoint 0 0 0) (mkPoint 1 0 0) (1/10) 0 0).type ∧
    Real.sqrt ((normSq (vsub
        (nodeKey (setBeamNodeModBeam
          (mkBeam (mkPoint 0 0 0) (mkPoint 1 0 0) (1/10) 0 0)
          1 (1/4) (1/4)).1.point2)
        (nodeKey (setBeamNodeModBeam
          (mkBeam (mkPoint 0 0 0) (mkPoint 1 0 0) (1/10) 0 0)
          1 (1/4) (1/4)).1.point1)) : ℚ) : ℝ)
      + Real.sqrt ((normSq (vsub
        (nodeKey (setBeamNodeModBeam
          (mkBeam (mkPoint 0 0 0) (mkPoint 1 0 0) (1/10) 0 0)
          1 (1/4) (1/4)).2.1.point2)
        (nodeKey (setBeamNodeModBeam
          (mkBeam (mkPoint 0 0 0) (mkPoint 1 0 0) (1/10) 0 0)
          1 (1/4) (1/4)).2.1.point1)) : ℚ) : ℝ)
      + Real.sqrt ((normSq (vsub
        (nodeKey (setBeamNodeModBeam
          (mkBeam (mkPoint 0 0 0) (mkPoint 1 0 0) (1/10) 0 0)
          1 (1/4) (1/4)).2.2.point2)
        (nodeKey (setBeamNodeModBeam
          (mkBeam (mkPoint 0 0 0) (mkPoint 1 0 0) (1/10) 0 0)
          1 (1/4) (1/4)).2.2.point1)) : ℚ) : ℝ)
      = Real.sqrt ((normSq (beamVec
          (mkBeam (mkPoint 0 0 0) (mkPoint 1 0 0) (1/10) 0 0)) : ℚ) : ℝ) :=
  setBeamNodeMod_split_properties
    (mkBeam (mkPoint 0 0 0) (mkPoint 1 0 0) (1/10) 0 0) 1 (1/4) (1/4)
    (by norm_num) (by norm_num) (by norm_num) (by norm_num)

/-! ## Geometry templates (`Geometry_Lattice.py`)

The per-template normalized segment lists, the id-to-name table
`LATTICE_GEOMETRIES` and the name-to-data table `GEOMETRY_DATA`, and the
lookup `Lattice_geometry`.  The file-level constant
`valGeom = hGeom - tan(20 * pi / 180) / 2` is a transcendental float
expression; since no claim inspects the `Auxetic` data, its float value
enters as the parameter `valGeom`.  `hGeom = 0.35` is taken at its decimal
value. -/

/-- One template segment: the two normalized endpoint coordinate triples
`(x1, y1, z1, x2, y2, z2)`. -/
abbrev Seg := ℚ × ℚ × ℚ × ℚ × ℚ × ℚ

/-- `hGeom = 0.35` (`Geometry_Lattice.py`, line 6). -/
def hGeom : ℚ := 35/100

def geomBCC : List Seg := [
  (0, 0, 0, 1/2, 1/2, 1/2),
  (1/2, 1/2, 1/2, 1, 1, 1),
  (1/2, 1/2, 1/2, 1, 1, 0),
  (1/2, 1/2, 1/2, 0, 0, 1),
  (1/2, 1/2, 1/2, 0, 1, 0),
  (1/2, 1/2, 1/2, 0, 1, 1),
  (1, 0, 1, 1/2, 1/2, 1/2),
  (1/2, 1/2, 1/2, 1, 0, 0)]

def geomOctet : List Seg := [
  (0, 0, 0, 1/2, 0, 1/2),
  (1, 0, 1, 1/2, 0, 1/2),
  (0, 0, 1, 1/2, 0, 1/2),
  (1, 0, 0, 1/2, 0, 1/2),
  (0, 0, 0, 0, 1/2, 1/2),
  (0, 1, 1, 0, 1/2, 1/2),
  (0, 0, 1, 0, 1/2, 1/2),
  (0, 1, 0, 0, 1/2, 1/2),
  (0, 0, 0, 1/2, 1/2, 0),
  (1, 1, 0, 1/2, 1/2, 0),
  (1, 0, 0, 1/2, 1/2, 0),
  (0, 1, 0, 1/2, 1/2, 0),
  (0, 0, 1, 1/2, 1/2, 1),
  (1, 1, 1, 1/2, 1/2, 1),
  (1, 0, 1, 1/2, 1/2, 1),
  (0, 1, 1, 1/2, 1/2, 1),
  (1, 1/2, 1/2, 1, 1, 1),
  (1, 0, 0, 1, 1/2, 1/2),
  (1, 1/2, 1/2, 1, 1, 0),
  (1, 0, 1, 1, 1/2, 1/2),
  (1/2, 1, 1/2, 1, 1, 1),
  (0, 1, 0, 1/2, 1, 1/2),
  (1/2, 1, 1/2, 1, 1, 0),
  (0, 1, 1, 1/2, 1, 1/2),
  (1/2, 0, 1/2, 1/2, 1/2, 0),
  (1/2, 0, 1/2, 0, 1/2, 1/2),
  (1/2, 0, 1/2, 1, 1/2, 1/2),
  (1/2, 0, 1/2, 1/2, 1/2, 1),
  (1/2, 1, 1/2, 1/2, 1/2, 0),
  (1/2, 1, 1/2, 0, 1/2, 1/2),
  (1/2, 1, 1/2, 1, 1/2, 1/2),
  (1/2, 1, 1/2, 1/2, 1/2, 1),
  (1, 1/2, 1/2, 1/2, 1/2, 0),
  (1/2, 1/2, 0, 0, 1/2, 1/2),
  (1/2, 1/2, 1, 0, 1/2, 1/2),
  (1/2, 1/2, 1, 1, 1/2, 1/2)]

def geomOctetExt : List Seg := [
  (0, 0, 0, 1/2, 0, 1/2),
  (1, 0, 1, 1/2, 0, 1/2),
  (0, 0, 1, 1/2, 0, 1/2),
  (1, 0, 0, 1/2, 0, 1/2),
  (0, 0, 0, 0, 1/2, 1/2),
  (0, 1, 1, 0, 1/2, 1/2),
  (0, 0, 1, 0, 1/2, 1/2),
  (0, 1, 0, 0, 1/2, 1/2),
  (0, 0, 0, 1/2, 1/2, 0),
  (1, 1, 0, 1/2, 1/2, 0),
  (1, 0, 0, 1/2, 1/2, 0),
  (0, 1, 0, 1/2, 1/2, 0),
  (0, 0, 1, 1/2, 1/2, 1),
  (1, 1, 1, 1/2, 1/2, 1),
  (1, 0, 1, 1/2, 1/2, 1),
  (0, 1, 1, 1/2, 1/2, 1),
  (1, 1/2, 1/2, 1, 1, 1),
  (1, 0, 0, 1, 1/2, 1/2),
  (1, 1/2, 1/2, 1, 1, 0),
  (1, 0, 1, 1, 1/2, 1/2),
  (1/2, 1, 1/2, 1, 1, 1),
  (0, 1, 0, 1/2, 1, 1/2),
  (1/2, 1, 1/2, 1, 1, 0),
  (0, 1, 1, 1/2, 1, 1/2)]

def geomOctetInt : List Seg := [
  (1/2, 0, 1/2, 1/2, 1/2, 0),
  (1/2, 0, 1/2, 0, 1/2, 1/2),
  (1/2, 0, 1/2, 1, 1/2, 1/2),
  (1/2, 0, 1/2, 1/2, 1/2, 1),
  (1/2, 1, 1/2, 1/2, 1/2, 0),
  (1/2, 1, 1/2, 0, 1/2, 1/2),
  (1/2, 1, 1/2, 1, 1/2, 1/2),
  (1/2, 1, 1/2, 1/2, 1/2, 1),
  (1, 1/2, 1/2, 1/2, 1/2, 0),
  (1/2, 1/2, 0, 0, 1/2, 1/2),
  (1/2, 1/2, 1, 0, 1/2, 1/2),
  (1/2, 1/2, 1, 1, 1/2, 1/2)]

def geomBCCZ : List Seg := [
  (1/2, 1/2, 1/2, 1, 1, 1),
  (0, 0, 0, 1/2, 1/2, 1/2),
  (1/2, 1/2, 1/2, 1, 1, 0),
  (0, 0, 1, 1/2, 1/2, 1/2),
  (1/2, 1/2, 1/2, 0, 1, 0),
  (1, 0, 1, 1/2, 1/2, 1/2),
  (1/2, 1/2, 1/2, 0, 1, 1),
  (1, 0, 0, 1/2, 1/2, 1/2),
  (1/2, 1/2, 0, 1/2, 1/2, 1/2),
  (1/2, 1/2, 1/2, 1/2, 1/2, 1)]

def geomCubic : List Seg := [
  (0, 0, 0, 0, 0, 1),
  (1, 0, 0, 1, 0, 1),
  (0, 1, 0, 0, 1, 1),
  (1, 1, 0, 1, 1, 1),
  (0, 0, 0, 1, 0, 0),
  (0, 0, 0, 0, 1, 0),
  (1, 1, 0, 0, 1, 0),
  (1, 1, 0, 1, 0, 0),
  (0, 0, 1, 1, 0, 1),
  (0, 0, 1, 0, 1, 1),
  (1, 1, 1, 0, 1, 1),
  (1, 1, 1, 1, 0, 1)]

def geomOctahedronZ : List Seg := [
  (1/2, 0, 1/2, 1/2, 1/2, 0),
  (1/2, 0, 1/2, 0, 1/2, 1/2),
  (1/2, 0, 1/2, 1, 1/2, 1/2),
  (1/2, 0, 1/2, 1/2, 1/2, 1),
  (1/2, 1, 1/2, 1/2, 1/2, 0),
  (1/2, 1, 1/2, 0, 1/2, 1/2),
  (1/2, 1, 1/2, 1, 1/2, 1/2),
  (1/2, 1, 1/2, 1/2, 1/2, 1),
  (1, 1/2, 1/2, 1/2, 1/2, 0),
  (1/2, 1/2, 0, 0, 1/2, 1/2),
  (1/2, 1/2, 1, 0, 1/2, 1/2),
  (1/2, 1/2, 1, 1, 1/2, 1/2),
  (1/2, 1/2, 0, 1/2, 1/2, 1)]

def geomOctahedronZcross : List Seg := [
  (1/2, 0, 1/2, 1/2, 1/2, 0),
  (1/2, 0, 1/2, 0, 1/2, 1/2),
  (1/2, 0, 1/2, 1, 1/2, 1/2),
  (1/2, 0, 1/2, 1/2, 1/2, 1),
  (1/2, 1, 1/2, 1/2, 1/2, 0),
  (1/2, 1, 1/2, 0, 1/2, 1/2),
  (1/2, 1, 1/2, 1, 1/2, 1/2),
  (1/2, 1, 1/2, 1/2, 1/2, 1),
  (1, 1/2, 1/2, 1/2, 1/2, 0),
  (1/2, 1/2, 0, 0, 1/2, 1/2),
  (1/2, 1/2, 1, 0, 1/2, 1/2),
  (1/2, 1/2, 1, 1, 1/2, 1/2),
  (1/2, 1/2, 0, 1/2, 1/2, 1/2),
  (1/2, 1/2, 1, 1/2, 1/2, 1/2),
  (1/2, 0, 1/2, 1/2, 1/2, 1/2),
  (0, 1/2, 1/2, 1/2, 1/2, 1/2),
  (1, 1/2, 1/2, 1/2, 1/2, 1/2),
  (1/2, 1, 1/2, 1/2, 1/2, 1/2)]

def geomKelvin : List Seg := [
  (1/2, 1/4, 0, 1/4, 1/2, 0),
  (1/2, 1/4, 0, 3/4, 1/2, 0),
  (1/2, 3/4, 0, 1/4, 1/2, 0),
  (1/2, 3/4, 0, 3/4, 1/2, 0),
  (1/2, 1/4, 1, 1/4, 1/2, 1),
  (1/2, 1/4, 1, 3/4, 1/2, 1),
  (1/2, 3/4, 1, 1/4, 1/2, 1),
  (1/2, 3/4, 1, 3/4, 1/2, 1),
  (1/2, 0, 1/4, 1/4, 0, 1/2),
  (1/2, 0, 1/4, 3/4, 0, 1/2),
  (1/2, 0, 3/4, 1/4, 0, 1/2),
  (1/2, 0, 3/4, 3/4, 0, 1/2),
  (1/2, 1, 1/4, 1/4, 1, 1/2),
  (1/2, 1, 1/4, 3/4, 1, 1/2),
  (1/2, 1, 3/4, 1/4, 1, 1/2),
  (1/2, 1, 3/4, 3/4, 1, 1/2),
  (0, 1/2, 1/4, 0, 1/4, 1/2),
  (0, 1/2, 1/4, 0, 3/4, 1/2),
  (0, 1/2, 3/4, 0, 1/4, 1/2),
  (0, 1/2, 3/4, 0, 3/4, 1/2),
  (1, 1/2, 1/4, 1, 1/4, 1/2),
  (1, 1/2, 1/4, 1, 3/4, 1/2),
  (1, 1/2, 3/4, 1, 1/4, 1/2),
  (1, 1/2, 3/4, 1, 3/4, 1/2),
  (1/2, 1/4, 0, 1/2, 0, 1/4),
  (1/4, 1/2, 0, 0, 1/2, 1/4),
  (3/4, 1/2, 0, 1, 1/2, 1/4),
  (1/2, 3/4, 0, 1/2, 1, 1/4),
  (1/4, 0, 1/2, 0, 1/4, 1/2),
  (3/4, 0, 1/2, 1, 1/4, 1/2),
  (3/4, 1, 1/2, 1, 3/4, 1/2),
  (1/4, 1, 1/2, 0, 3/4, 1/2),
  (1/2, 0, 3/4, 1/2, 1/4, 1),
  (0, 1/2, 3/4, 1/4, 1/2, 1),
  (1/2, 1, 3/4, 1/2, 3/4, 1),
  (1, 1/2, 3/4, 3/4, 1/2, 1)]

def geomCubicV2 : List Seg := [
  (1/2, 0, 1/2, 1/2, 1/2, 1/2),
  (0, 1/2, 1/2, 1/2, 1/2, 1/2),
  (1/2, 1, 1/2, 1/2, 1/2, 1/2),
  (1, 1/2, 1/2, 1/2, 1/2, 1/2),
  (1/2, 1/2, 0, 1/2, 1/2, 1/2),
  (1/2, 1/2, 1, 1/2, 1/2, 1/2)]

def geomCubicV3 : List Seg := [
  (0, 0, 0, 1/2, 0, 0),
  (1/2, 0, 0, 1, 0, 0),
  (0, 1, 0, 1/2, 1, 0),
  (1/2, 1, 0, 1, 1, 0),
  (1/2, 0, 0, 1/2, 1, 0),
  (0, 0, 1, 1/2, 0, 1),
  (1/2, 0, 1, 1, 0, 1),
  (0, 1, 1, 1/2, 1, 1),
  (1/2, 1, 1, 1, 1, 1),
  (1/2, 0, 1, 1/2, 1, 1),
  (1/2, 0, 0, 1/2, 0, 1),
  (1/2, 1, 0, 1/2, 1, 1)]

def geomCubicV4 : List Seg := [
  (1/2, 0, 0, 1/2, 1/2, 0),
  (0, 1/2, 0, 1/2, 1/2, 0),
  (1/2, 1, 0, 1/2, 1/2, 0),
  (1, 1/2, 0, 1/2, 1/2, 0),
  (1/2, 0, 1, 1/2, 1/2, 1),
  (0, 1/2, 1, 1/2, 1/2, 1),
  (1/2, 1, 1, 1/2, 1/2, 1),
  (1, 1/2, 1, 1/2, 1/2, 1),
  (1/2, 1/2, 0, 1/2, 1/2, 1)]

def geomNewlattice : List Seg := [
  (0, 0, 0, 1/4, 1/4, 1/4),
  (1/4, 1/4, 1/4, 1/2, 0, 0),
  (1/4, 1/4, 1/4, 0, 0, 1/2),
  (1/4, 1/4, 1/4, 0, 1/2, 0),
  (1, 0, 0, 3/4, 1/4, 1/4),
  (3/4, 1/4, 1/4, 1/2, 0, 0),
  (3/4, 1/4, 1/4, 1, 1/2, 0),
  (3/4, 1/4, 1/4, 1, 0, 1/2),
  (0, 1, 0, 1/4, 3/4, 1/4),
  (1/4, 3/4, 1/4, 0, 1/2, 0),
  (1/4, 3/4, 1/4, 1/2, 1, 0),
  (1/4, 3/4, 1/4, 0, 1, 1/2),
  (1, 1, 0, 3/4, 3/4, 1/4),
  (3/4, 3/4, 1/4, 1, 1/2, 0),
  (3/4, 3/4, 1/4, 1/2, 1, 0),
  (3/4, 3/4, 1/4, 1, 1, 1/2),
  (0, 0, 1, 1/4, 1/4, 3/4),
  (1/4, 1/4, 3/4, 0, 1/2, 1),
  (1/4, 1/4, 3/4, 1/2, 0, 1),
  (1/4, 1/4, 3/4, 0, 0, 1/2),
  (1, 0, 1, 3/4, 1/4, 3/4),
  (3/4, 1/4, 3/4, 1, 0, 1/2),
  (3/4, 1/4, 3/4, 1/2, 0, 1),
  (3/4, 1/4, 3/4, 1, 1/2, 1),
  (0, 1, 1, 1/4, 3/4, 3/4),
  (1/4, 3/4, 3/4, 0, 1, 1/2),
  (1/4, 3/4, 3/4, 1/2, 1, 1),
  (1/4, 3/4, 3/4, 0, 1/2, 1),
  (1, 1, 1, 3/4, 3/4, 3/4),
  (3/4, 3/4, 3/4, 1, 1, 1/2),
  (3/4, 3/4, 3/4, 1/2, 1, 1),
  (3/4, 3/4, 3/4, 1, 1/2, 1)]

def geomDiamond : List Seg := [
  (0, 0, 0, 1/4, 1/4, 1/4),
  (1/4, 1/4, 1/4, 1/2, 1/2, 0),
  (1/4, 1/4, 1/4, 0, 1/2, 1/2),
  (1/4, 1/4, 1/4, 1/2, 0, 1/2),
  (1, 0, 0, 3/4, 1/4, 1/4),
  (3/4, 1/4, 1/4, 1/2, 1/2, 0),
  (3/4, 1/4, 1/4, 1, 1/2, 1/2),
  (3/4, 1/4, 1/4, 1/2, 0, 1/2),
  (1, 1, 0, 3/4, 3/4, 1/4),
  (3/4, 3/4, 1/4, 1/2, 1/2, 0),
  (3/4, 3/4, 1/4, 1, 1/2, 1/2),
  (3/4, 3/4, 1/4, 1/2, 1, 1/2),
  (0, 1, 0, 1/4, 3/4, 1/4),
  (1/4, 3/4, 1/4, 1/2, 1/2, 0),
  (1/4, 3/4, 1/4, 0, 1/2, 1/2),
  (1/4, 3/4, 1/4, 1/2, 1, 1/2),
  (0, 0, 1, 1/4, 1/4, 3/4),
  (1/4, 1/4, 3/4, 1/2, 1/2, 1),
  (1/4, 1/4, 3/4, 0, 1/2, 1/2),
  (1/4, 1/4, 3/4, 1/2, 0, 1/2),
  (1, 0, 1, 3/4, 1/4, 3/4),
  (3/4, 1/4, 3/4, 1/2, 1/2, 1),
  (3/4, 1/4, 3/4, 1, 1/2, 1/2),
  (3/4, 1/4, 3/4, 1/2, 0, 1/2),
  (1, 1, 1, 3/4, 3/4, 3/4),
  (3/4, 3/4, 3/4, 1/2, 1/2, 1),
  (3/4, 3/4, 3/4, 1, 1/2, 1/2),
  (3/4, 3/4, 3/4, 1/2, 1, 1/2),
  (0, 1, 1, 1/4, 3/4, 3/4),
  (1/4, 3/4, 3/4, 1/2, 1/2, 1),
  (1/4, 3/4, 3/4, 0, 1/2, 1/2),
  (1/4, 3/4, 3/4, 1/2, 1, 1/2)]

def geomAuxetic (valGeom : ℚ) : List Seg := [
  (1/2, 0, 0, 1/2, 0, (hGeom)),
  (1/2, 0, 1, 1/2, 0, (1 - hGeom)),
  (0, 0, (valGeom), 0, 0, (1 - valGeom)),
  (1, 0, (valGeom), 1, 0, (1 - valGeom)),
  (0, 0, (valGeom), 1/2, 0, (hGeom)),
  (0, 0, (1 - valGeom), 1/2, 0, (1 - hGeom)),
  (1, 0, (1 - valGeom), 1/2, 0, (1 - hGeom)),
  (1, 0, (valGeom), 1/2, 0, (hGeom)),
  (1/2, 1, 0, 1/2, 1, (hGeom)),
  (1/2, 1, 1, 1/2, 1, (1 - hGeom)),
  (0, 1, (valGeom), 0, 1, (1 - valGeom)),
  (1, 1, (valGeom), 1, 1, (1 - valGeom)),
  (0, 1, (valGeom), 1/2, 1, (hGeom)),
  (0, 1, (1 - valGeom), 1/2, 1, (1 - hGeom)),
  (1, 1, (1 - valGeom), 1/2, 1, (1 - hGeom)),
  (1, 1, (valGeom), 1/2, 1, (hGeom)),
  (1, 0, (valGeom), 1, 1/2, (hGeom)),
  (1, 1, (valGeom), 1, 1/2, (hGeom)),
  (1, 1/2, 0, 1, 1/2, (hGeom)),
  (1, 1/2, (1 - hGeom), 1, 1, (1 - valGeom)),
  (1, 1/2, (1 - hGeom), 1, 0, (1 - valGeom)),
  (1, 1/2, (1 - hGeom), 1, 1/2, 1),
  (0, 0, (valGeom), 0, 1/2, (hGeom)),
  (0, 1, (valGeom), 0, 1/2, (hGeom)),
  (0, 1/2, 0, 0, 1/2, (hGeom)),
  (0, 1/2, (1 - hGeom), 0, 1, (1 - valGeom)),
  (0, 1/2, (1 - hGeom), 0, 0, (1 - valGeom)),
  (0, 1/2, (1 - hGeom), 0, 1/2, 1)]

def geomHLattice : List Seg := [
  (0, 0, 0, 1/2, 1/2, 1/2),
  (1/2, 1/2, 1/2, 1, 1, 1),
  (1/2, 1/2, 1/2, 1, 1, 0),
  (1/2, 1/2, 1/2, 0, 0, 1),
  (1/2, 1/2, 1/2, 0, 1, 0),
  (1/2, 1/2, 1/2, 0, 1, 1),
  (1, 0, 1, 1/2, 1/2, 1/2),
  (1/2, 1/2, 1/2, 1, 0, 0),
  (0, 0, 0, 1/2, 0, 1/2),
  (1/2, 0, 0, 1/2, 0, 1/2),
  (1, 0, 0, 1/2, 0, 1/2),
  (1, 0, 1/2, 1/2, 0, 1/2),
  (1, 0, 1, 1/2, 0, 1/2),
  (1/2, 0, 1, 1/2, 0, 1/2),
  (0, 0, 1, 1/2, 0, 1/2),
  (0, 0, 1/2, 1/2, 0, 1/2),
  (0, 1, 0, 1/2, 1, 1/2),
  (1/2, 1, 0, 1/2, 1, 1/2),
  (1, 1, 0, 1/2, 1, 1/2),
  (1, 1, 1/2, 1/2, 1, 1/2),
  (1, 1, 1, 1/2, 1, 1/2),
  (1/2, 1, 1, 1/2, 1, 1/2),
  (0, 1, 1, 1/2, 1, 1/2),
  (0, 1, 1/2, 1/2, 1, 1/2),
  (1, 0, 0, 1, 1/2, 1/2),
  (1, 1/2, 0, 1, 1/2, 1/2),
  (1, 1, 0, 1, 1/2, 1/2),
  (1, 1, 1/2, 1, 1/2, 1/2),
  (1, 1, 1, 1, 1/2, 1/2),
  (1, 1/2, 1, 1, 1/2, 1/2),
  (1, 0, 1, 1, 1/2, 1/2),
  (1, 0, 1/2, 1, 1/2, 1/2),
  (0, 0, 0, 0, 1/2, 1/2),
  (0, 1/2, 0, 0, 1/2, 1/2),
  (0, 1, 0, 0, 1/2, 1/2),
  (0, 1, 1/2, 0, 1/2, 1/2),
  (0, 1, 1, 0, 1/2, 1/2),
  (0, 1/2, 1, 0, 1/2, 1/2),
  (0, 0, 1, 0, 1/2, 1/2),
  (0, 0, 1/2, 0, 1/2, 1/2),
  (0, 0, 0, 1/2, 1/2, 0),
  (1/2, 0, 0, 1/2, 1/2, 0),
  (1, 0, 0, 1/2, 1/2, 0),
  (1, 1/2, 0, 1/2, 1/2, 0),
  (1, 1, 0, 1/2, 1/2, 0),
  (1/2, 1, 0, 1/2, 1/2, 0),
  (0, 1, 0, 1/2, 1/2, 0),
  (0, 1/2, 0, 1/2, 1/2, 0),
  (0, 0, 1, 1/2, 1/2, 1),
  (1/2, 0, 1, 1/2, 1/2, 1),
  (1, 0, 1, 1/2, 1/2, 1),
  (1, 1/2, 1, 1/2, 1/2, 1),
  (1, 1, 1, 1/2, 1/2, 1),
  (1/2, 1, 1, 1/2, 1/2, 1),
  (0, 1, 1, 1/2, 1/2, 1),
  (0, 1/2, 1, 1/2, 1/2, 1)]

def geomHybrid1 : List Seg := [
  (1/4, 1/4, 1/4, 1/2, 0, 0),
  (1/4, 1/4, 1/4, 0, 0, 1/2),
  (1/4, 1/4, 1/4, 0, 1/2, 0),
  (3/4, 1/4, 1/4, 1/2, 0, 0),
  (3/4, 1/4, 1/4, 1, 1/2, 0),
  (3/4, 1/4, 1/4, 1, 0, 1/2),
  (1/4, 3/4, 1/4, 0, 1/2, 0),
  (1/4, 3/4, 1/4, 1/2, 1, 0),
  (1/4, 3/4, 1/4, 0, 1, 1/2),
  (3/4, 3/4, 1/4, 1, 1/2, 0),
  (3/4, 3/4, 1/4, 1/2, 1, 0),
  (3/4, 3/4, 1/4, 1, 1, 1/2),
  (1/4, 1/4, 3/4, 0, 1/2, 1),
  (1/4, 1/4, 3/4, 1/2, 0, 1),
  (1/4, 1/4, 3/4, 0, 0, 1/2),
  (3/4, 1/4, 3/4, 1, 0, 1/2),
  (3/4, 1/4, 3/4, 1/2, 0, 1),
  (3/4, 1/4, 3/4, 1, 1/2, 1),
  (1/4, 3/4, 3/4, 0, 1, 1/2),
  (1/4, 3/4, 3/4, 1/2, 1, 1),
  (1/4, 3/4, 3/4, 0, 1/2, 1),
  (3/4, 3/4, 3/4, 1, 1, 1/2),
  (3/4, 3/4, 3/4, 1/2, 1, 1),
  (3/4, 3/4, 3/4, 1, 1/2, 1)]

def geomHybrid2 : List Seg := [
  (1/2, 0, 0, 1/2, 1/2, 1/2),
  (1, 0, 1/2, 1/2, 1/2, 1/2),
  (1/2, 0, 1, 1/2, 1/2, 1/2),
  (0, 0, 1/2, 1/2, 1/2, 1/2),
  (1/2, 1, 0, 1/2, 1/2, 1/2),
  (1, 1, 1/2, 1/2, 1/2, 1/2),
  (1/2, 1, 1, 1/2, 1/2, 1/2),
  (0, 1, 1/2, 1/2, 1/2, 1/2),
  (0, 1/2, 0, 1/2, 1/2, 1/2),
  (0, 1/2, 1, 1/2, 1/2, 1/2),
  (1, 1/2, 0, 1/2, 1/2, 1/2),
  (1, 1/2, 1, 1/2, 1/2, 1/2)]

def geomHybrid3 : List Seg := [
  (1/4, 1/4, 1/4, 1/2, 0, 1/2),
  (3/4, 1/4, 1/4, 1/2, 0, 1/2),
  (1/4, 1/4, 3/4, 1/2, 0, 1/2),
  (3/4, 1/4, 3/4, 1/2, 0, 1/2),
  (1/4, 3/4, 1/4, 1/2, 1, 1/2),
  (3/4, 3/4, 1/4, 1/2, 1, 1/2),
  (1/4, 3/4, 3/4, 1/2, 1, 1/2),
  (3/4, 3/4, 3/4, 1/2, 1, 1/2),
  (1/4, 1/4, 1/4, 0, 1/2, 1/2),
  (1/4, 3/4, 1/4, 0, 1/2, 1/2),
  (1/4, 3/4, 3/4, 0, 1/2, 1/2),
  (1/4, 1/4, 3/4, 0, 1/2, 1/2),
  (3/4, 1/4, 1/4, 1, 1/2, 1/2),
  (3/4, 3/4, 1/4, 1, 1/2, 1/2),
  (3/4, 3/4, 3/4, 1, 1/2, 1/2),
  (3/4, 1/4, 3/4, 1, 1/2, 1/2),
  (1/4, 1/4, 3/4, 1/2, 1/2, 1),
  (3/4, 3/4, 3/4, 1/2, 1/2, 1),
  (1/4, 3/4, 3/4, 1/2, 1/2, 1),
  (3/4, 1/4, 3/4, 1/2, 1/2, 1),
  (1/4, 1/4, 1/4, 1/2, 1/2, 0),
  (3/4, 3/4, 1/4, 1/2, 1/2, 0),
  (1/4, 3/4, 1/4, 1/2, 1/2, 0),
  (3/4, 1/4, 1/4, 1/2, 1/2, 0)]

def geomHybrid3_plus_bar : List Seg := [
  (1/4, 1/4, 1/4, 1/2, 0, 1/2),
  (3/4, 1/4, 1/4, 1/2, 0, 1/2),
  (1/4, 1/4, 3/4, 1/2, 0, 1/2),
  (3/4, 1/4, 3/4, 1/2, 0, 1/2),
  (1/4, 3/4, 1/4, 1/2, 1, 1/2),
  (3/4, 3/4, 1/4, 1/2, 1, 1/2),
  (1/4, 3/4, 3/4, 1/2, 1, 1/2),
  (3/4, 3/4, 3/4, 1/2, 1, 1/2),
  (1/4, 1/4, 1/4, 0, 1/2, 1/2),
  (1/4, 3/4, 1/4, 0, 1/2, 1/2),
  (1/4, 3/4, 3/4, 0, 1/2, 1/2),
  (1/4, 1/4, 3/4, 0, 1/2, 1/2),
  (3/4, 1/4, 1/4, 1, 1/2, 1/2),
  (3/4, 3/4, 1/4, 1, 1/2, 1/2),
  (3/4, 3/4, 3/4, 1, 1/2, 1/2),
  (3/4, 1/4, 3/4, 1, 1/2, 1/2),
  (1/4, 1/4, 3/4, 1/2, 1/2, 1),
  (3/4, 3/4, 3/4, 1/2, 1/2, 1),
  (1/4, 3/4, 3/4, 1/2, 1/2, 1),
  (3/4, 1/4, 3/4, 1/2, 1/2, 1),
  (1/4, 1/4, 1/4, 1/2, 1/2, 0),
  (3/4, 3/4, 1/4, 1/2, 1/2, 0),
  (1/4, 3/4, 1/4, 1/2, 1/2, 0),
  (3/4, 1/4, 1/4, 1/2, 1/2, 0),
  (1/2, 0, 1/2, 1/2, 1/2, 1/2),
  (1/2, 1, 1/2, 1/2, 1/2, 1/2),
  (0, 1/2, 1/2, 1/2, 1/2, 1/2),
  (1, 1/2, 1/2, 1/2, 1/2, 1/2),
  (1/2, 1/2, 1, 1/2, 1/2, 1/2),
  (1/2, 1/2, 0, 1/2, 1/2, 1/2)]


/-- `LATTICE_GEOMETRIES` (`Geometry_Lattice.py`, lines 9–30): template id to
geometry name. -/
def LATTICE_GEOMETRIES : List (ℤ × String) := [
  (0, "BCC"), (1, "Octet"), (2, "OctetExt"), (3, "OctetInt"), (4, "BCCZ"),
  (5, "Cubic"), (6, "OctahedronZ"), (7, "OctahedronZcross"), (8, "Kelvin"),
  (9, "CubicV2"), (10, "CubicV3"), (11, "CubicV4"), (12, "Newlattice"),
  (13, "Diamond"), (14, "Auxetic"), (15, "HLattice"), (16, "Hybrid1"),
  (17, "Hybrid2"), (18, "Hybrid3"), (19, "Hybrid3_plus_bar")]

/-- `GEOMETRY_DATA` (`Geometry_Lattice.py`, lines 484–505): geometry name to
segment list. -/
def GEOMETRY_DATA (valGeom : ℚ) : List (String × List Seg) := [
  ("BCC", geomBCC), ("Octet", geomOctet), ("OctetExt", geomOctetExt),
  ("OctetInt", geomOctetInt), ("BCCZ", geomBCCZ), ("Cubic", geomCubic),
  ("OctahedronZ", geomOctahedronZ), ("OctahedronZcross", geomOctahedronZcross),
  ("Kelvin", geomKelvin), ("CubicV2", geomCubicV2), ("CubicV3", geomCubicV3),
  ("CubicV4", geomCubicV4), ("Newlattice", geomNewlattice),
  ("Diamond", geomDiamond), ("Auxetic", geomAuxetic valGeom),
  ("HLattice", geomHLattice), ("Hybrid1", geomHybrid1),
  ("Hybrid2", geomHybrid2), ("Hybrid3", geomHybrid3),
  ("Hybrid3_plus_bar", geomHybrid3_plus_bar)]

/-- Python `dict.get(key, default)` on an association list. -/
def dictGetD {K V : Type} [DecidableEq K] (m : List (K × V)) (k : K)
    (dflt : V) : V :=
  match m.find? fun p => decide (p.1 = k) with
  | some p => p.2
  | none => dflt

/-- Python `dict[key]` on an association list: `KeyError` when absent. -/
def dictAccess {K V : Type} [DecidableEq K] (m : List (K × V)) (k : K) :
    Except String V :=
  match m.find? fun p => decide (p.1 = k) with
  | some p => Except.ok p.2
  | none => Except.error "KeyError"

/-- `Lattice_geometry(LatticeGeometry)` (`Geometry_Lattice.py`, lines
509–521): id `-1` is replaced by a random known key (the draw enters as the
parameter `randomKey`); then the id is translated with
`LATTICE_GEOMETRIES.get(id, "BCC")` — an unknown id silently falls back to
the name `"BCC"` — and the name is looked up in `GEOMETRY_DATA`, whose
`dict[...]` access would be the only error opportunity. -/
def Lattice_geometry (valGeom : ℚ) (randomKey : ℤ) (latticeGeometry : ℤ) :
    Except String (List Seg) :=
  let id := if latticeGeometry = -1 then randomKey else latticeGeometry
  let geometryName := dictGetD LATTICE_GEOMETRIES id "BCC"
  dictAccess (GEOMETRY_DATA valGeom) geometryName

/-- **C3 counterexample.**  The unknown template id `42` (not a known id,
not the random sentinel `-1`) does not raise: `Lattice_geometry` silently
returns the default BCC geometry. -/
theorem unknown_template_id_returns_default_BCC :
    Lattice_geometry 0 0 42 = Except.ok geomBCC := by
  rfl

/-- **C3 (amended).**  For every template id that is not one of the known
geometry ids and not `-1`, `Lattice_geometry` silently recovers by
returning the default BCC geometry; it never raises. -/
theorem unknown_template_id_silently_defaults (valGeom : ℚ) (randomKey : ℤ)
    (id : ℤ) (hUnknown : ∀ p ∈ LATTICE_GEOMETRIES, p.1 ≠ id)
    (hNotRandom : id ≠ -1) :
    Lattice_geometry valGeom randomKey id = Except.ok geomBCC := by
  have hnone : LATTICE_GEOMETRIES.find? (fun p => decide (p.1 = id)) = none := by
    apply List.find?_eq_none.mpr
    intro p hp
    simpa using hUnknown p hp
  simp only [Lattice_geometry, dictGetD, if_neg hNotRandom, hnone]
  rfl

/-- Witness for C3 at the unknown id `25`. -/
theorem unknown_template_id_silently_defaults_witness :
    Lattice_geometry (7/2) 3 25 = Except.ok geomBCC :=
  unknown_template_id_silently_defaults (7/2) 3 25 (by decide) (by decide)

/-! ## Object heaps and Python dictionaries

`Cell` objects hold lists of `Beam` object references; `Beam` objects hold
`Point` object references.  Shared references (one Point aliased by several
Beams, coordinate-equal but distinct objects across cells) are modelled by
numeric references into the `nodes`/`beams` heaps. -/

/-- One `Beam` object on the heap: endpoint object references plus the
scalar attributes. -/
structure BeamObj where
  point1 : ℕ
  point2 : ℕ
  radius : ℚ
  material : ℤ
  type : ℤ
  index : Option ℕ
  modBeam : Bool
deriving DecidableEq, Repr

/-- One `Cell` object: beam object references, grid position `posCell`,
origin `coordinateCell`, size `cellSize`, neighbour references.  `posCell`
holds Python ints, but they mix with floats in `defineCellNeighbours`, so
all three are rationals here. -/
structure CellObj where
  beams : List ℕ
  posCell : ℚ × ℚ × ℚ
  coordinateCell : ℚ × ℚ × ℚ
  cellSize : ℚ × ℚ × ℚ
  neighbourCells : List ℕ
deriving DecidableEq, Repr

/-- The heap of a `Lattice`: all Point objects, all Beam objects, and the
cells referencing them. -/
structure LatticeState where
  nodes : List NodeObj
  beams : List BeamObj
  cells : List CellObj
deriving DecidableEq, Repr

def defaultBeam : BeamObj :=
  { point1 := 0, point2 := 0, radius := 0, material := 0, type := 0
    index := none, modBeam := false }

def defaultCell : CellObj :=
  { beams := [], posCell := (0, 0, 0), coordinateCell := (0, 0, 0)
    cellSize := (1, 1, 1), neighbourCells := [] }

/-- Dereference a Point object. -/
def getNode (nodes : List NodeObj) (i : ℕ) : NodeObj := nodes.getD i defaultNode

/-- Dereference a Beam object. -/
def getBeam (beams : List BeamObj) (i : ℕ) : BeamObj := beams.getD i defaultBeam

/-- A Python dict as an association list; inserted entries shadow older
ones, as Python assignment overwrites. -/
abbrev Dict (K V : Type) := List (K × V)

/-- Python `dict[key]` as an optional read. -/
def dictLookup {K V : Type} [DecidableEq K] (m : Dict K V) (k : K) :
    Option V :=
  (m.find? fun p => decide (p.1 = k)).map (·.2)

/-- Python `dict[key] = value`. -/
def dictInsert {K V : Type} (m : Dict K V) (k : K) (v : V) : Dict K V :=
  (k, v) :: m

lemma dictLookup_insert_self {K V : Type} [DecidableEq K] (m : Dict K V)
    (k : K) (v : V) : dictLookup (dictInsert m k v) k = some v := by
  simp [dictLookup, dictInsert, List.find?]

lemma dictLookup_insert_ne {K V : Type} [DecidableEq K] (m : Dict K V)
    (k k' : K) (v : V) (h : k ≠ k') :
    dictLookup (dictInsert m k v) k' = dictLookup m k' := by
  simp [dictLookup, dictInsert, List.find?, decide_eq_false h]

/-- The key of a Beam object in a Python dict: `Beam.__hash__`/`__eq__`
reduce to the ordered pair of endpoint coordinate triples. -/
def beamKeyN (nodes : List NodeObj) (b : BeamObj) : Vec3 × Vec3 :=
  (nodeKey (getNode nodes b.point1), nodeKey (getNode nodes b.point2))

/-- The beam objects in lattice traversal order:
`for cell in self.cells: for beam in cell.beams`. -/
def beamTraversal (s : LatticeState) : List ℕ :=
  (s.cells.map CellObj.beams).flatten

/-- Node reference `i` occurs as an endpoint of some traversed beam. -/
def IsEndpoint (s : LatticeState) (i : ℕ) : Prop :=
  ∃ bid ∈ beamTraversal s, (getBeam s.beams bid).point1 = i ∨
    (getBeam s.beams bid).point2 = i

/-- Well-formedness: every traversed beam reference and both its endpoint
references are in range.  The Python code would have crashed on a dangling
reference long before these passes. -/
def WellFormed (s : LatticeState) : Prop :=
  ∀ bid ∈ beamTraversal s, bid < s.beams.length ∧
    (getBeam s.beams bid).point1 < s.nodes.length ∧
    (getBeam s.beams bid).point2 < s.nodes.length

/-- `getD` after `set`, all cases. -/
lemma getD_set {α : Type} (l : List α) (i j : ℕ) (a d : α) :
    (l.set i a).getD j d =
      if i = j ∧ i < l.length then a else l.getD j d := by
  induction l generalizing i j with
  | nil => simp
  | cons x t ih =>
    cases i with
    | zero =>
      cases j with
      | zero => simp
      | succ j => simp [List.set]
    | succ i =>
      cases j with
      | zero => simp [List.set]
      | succ j =>
        simp only [List.set, List.getD_cons_succ, List.length_cons, ih]
        by_cases h : i = j ∧ i < t.length
        · rw [if_pos h, if_pos ⟨by omega, by omega⟩]
        · rw [if_neg h, if_neg (by omega)]

/-- `foldl` preserves an invariant closed under each step. -/
lemma foldl_inv {α σ : Type} {P : σ → Prop} (f : σ → α → σ) (l : List α)
    (st : σ) (h0 : P st) (hstep : ∀ st a, a ∈ l → P st → P (f st a)) :
    P (l.foldl f st) := by
  induction l generalizing st with
  | nil => exact h0
  | cons a t ih =>
    exact ih (f st a) (hstep st a (by simp) h0)
      fun st' b hb => hstep st' b (by simp [hb])

/-- Splitting a list at the last element satisfying a predicate. -/
lemma exists_last_split {α : Type} (p : α → Prop) [DecidablePred p]
    {l : List α} (h : ∃ a ∈ l, p a) :
    ∃ l1 a l2, l = l1 ++ a :: l2 ∧ p a ∧ ∀ b ∈ l2, ¬ p b := by
  induction l with
  | nil => simp at h
  | cons x t ih =>
    by_cases ht : ∃ b ∈ t, p b
    · obtain ⟨l1, a, l2, rfl, ha, hnone⟩ := ih ht
      exact ⟨x :: l1, a, l2, rfl, ha, hnone⟩
    · have hx : p x := by
        obtain ⟨b, hb, hpb⟩ := h
        rcases List.mem_cons.mp hb with rfl | hbt
        · exact hpb
        · exact absurd ⟨b, hbt, hpb⟩ ht
      exact ⟨[], x, t, rfl, hx, fun b hb hpb => ht ⟨b, hb, hpb⟩⟩

/-! ## `Lattice.defineBeamNodeIndex` (Lattice.py, lines 436–473)

Two passes over `for cell in self.cells: for beam in cell.beams` (and, per
beam, `for node in [beam.point1, beam.point2]`).  The first pass records,
for every already-indexed beam/node occurrence, its dict key against a
fresh counter value; the second pass assigns indices to unindexed beams
and nodes, consulting the dicts to give coordinate-identical duplicates
the mapped value. -/

/-- The dictionaries `beamIndexed`/`nodeIndexed` and the two counters. -/
structure IdxMaps where
  beamIndexed : Dict (Vec3 × Vec3) ℕ
  nodeIndexed : Dict Vec3 ℕ
  nextBeamIndex : ℕ
  nextNodeIndex : ℕ
deriving Repr

/-- First pass, node part: `if node.index is not None:
nodeIndexed[node] = nextNodeIndex; nextNodeIndex += 1`. -/
def pass1Node (nodes : List NodeObj) (st : IdxMaps) (nid : ℕ) : IdxMaps :=
  let n := getNode nodes nid
  if n.index ≠ none then
    { st with
      nodeIndexed := dictInsert st.nodeIndexed (nodeKey n) st.nextNodeIndex
      nextNodeIndex := st.nextNodeIndex + 1 }
  else st

/-- First pass, one beam occurrence with its two endpoints. -/
def pass1Beam (s : LatticeState) (st : IdxMaps) (bid : ℕ) : IdxMaps :=
  let b := getBeam s.beams bid
  let st1 :=
    if b.index ≠ none then
      { st with
        beamIndexed := dictInsert st.beamIndexed (beamKeyN s.nodes b)
          st.nextBeamIndex
        nextBeamIndex := st.nextBeamIndex + 1 }
    else st
  pass1Node s.nodes (pass1Node s.nodes st1 b.point1) b.point2

/-- The whole first pass. -/
def passOne (s : LatticeState) : IdxMaps :=
  (beamTraversal s).foldl (pass1Beam s) ⟨[], [], 0, 0⟩

/-- Mutable state of the second pass: the heaps plus the dicts/counters. -/
structure IdxState where
  nodes : List NodeObj
  beams : List BeamObj
  maps : IdxMaps
deriving Repr

/-- Write `node.index = v`. -/
def setNodeIndex (nodes : List NodeObj) (i v : ℕ) : List NodeObj :=
  nodes.set i { getNode nodes i with index := some v }

/-- Write `beam.index = v`. -/
def setBeamIndex (beams : List BeamObj) (i v : ℕ) : List BeamObj :=
  beams.set i { getBeam beams i with index := some v }

/-- Second pass, node part: unindexed nodes get the mapped value for their
coordinates, or a fresh sequential index recorded in the dict. -/
def pass2Node (st : IdxState) (nid : ℕ) : IdxState :=
  let n := getNode st.nodes nid
  if n.index = none then
    match dictLookup st.maps.nodeIndexed (nodeKey n) with
    | none =>
      { st with
        nodes := setNodeIndex st.nodes nid st.maps.nextNodeIndex
        maps := { st.maps with
          nodeIndexed := dictInsert st.maps.nodeIndexed (nodeKey n)
            st.maps.nextNodeIndex
          nextNodeIndex := st.maps.nextNodeIndex + 1 } }
    | some v => { st with nodes := setNodeIndex st.nodes nid v }
  else st

/-- Second pass, beam part of one occurrence: an unindexed beam gets the
mapped value for its endpoint-coordinate key, or a fresh sequential index
recorded in the dict. -/
def pass2BeamStep (st : IdxState) (bid : ℕ) : IdxState :=
  let b := getBeam st.beams bid
  if b.index = none then
    match dictLookup st.maps.beamIndexed (beamKeyN st.nodes b) with
    | none =>
      { st with
        beams := setBeamIndex st.beams bid st.maps.nextBeamIndex
        maps := { st.maps with
          beamIndexed := dictInsert st.maps.beamIndexed
            (beamKeyN st.nodes b) st.maps.nextBeamIndex
          nextBeamIndex := st.maps.nextBeamIndex + 1 } }
    | some v => { st with beams := setBeamIndex st.beams bid v }
  else st

/-- Second pass, one beam occurrence: the beam part, then both endpoints
in order. -/
def pass2Beam (st : IdxState) (bid : ℕ) : IdxState :=
  let b := getBeam st.beams bid
  pass2Node (pass2Node (pass2BeamStep st bid) b.point1) b.point2

/-- The second pass folded over the traversal, starting from the first
pass's dictionaries. -/
def passTwo (s : LatticeState) : IdxState :=
  (beamTraversal s).foldl pass2Beam ⟨s.nodes, s.beams, passOne s⟩

/-- `Lattice.defineBeamNodeIndex`. -/
def defineBeamNodeIndex (s : LatticeState) : LatticeState :=
  { s with nodes := (passTwo s).nodes, beams := (passTwo s).beams }

/-! ### Invariants of the second indexing pass -/

/-- `cur` differs from `orig` at most in its `index` field. -/
def sameButIndexN (orig cur : NodeObj) : Prop :=
  cur = { orig with index := cur.index }

/-- `cur` differs from `orig` at most in its `index` field. -/
def sameButIndexB (orig cur : BeamObj) : Prop :=
  cur = { orig with index := cur.index }

lemma sameButIndexN_refl (n : NodeObj) : sameButIndexN n n := rfl

lemma sameButIndexB_refl (b : BeamObj) : sameButIndexB b b := rfl

lemma sameButIndexN_update {orig cur : NodeObj} (h : sameButIndexN orig cur)
    (o : Option ℕ) : sameButIndexN orig { cur with index := o } := by
  unfold sameButIndexN at h ⊢
  rw [h]

lemma sameButIndexB_update {orig cur : BeamObj} (h : sameButIndexB orig cur)
    (o : Option ℕ) : sameButIndexB orig { cur with index := o } := by
  unfold sameButIndexB at h ⊢
  rw [h]

lemma nodeKey_sameButIndexN {orig cur : NodeObj} (h : sameButIndexN orig cur) :
    nodeKey cur = nodeKey orig := by
  rw [h]; rfl

lemma getNode_setNodeIndex (nodes : List NodeObj) (nid v i : ℕ) :
    getNode (setNodeIndex nodes nid v) i =
      if nid = i ∧ nid < nodes.length then
        { getNode nodes nid with index := some v }
      else getNode nodes i := by
  unfold getNode setNodeIndex
  exact getD_set nodes nid i _ _

lemma getBeam_setBeamIndex (beams : List BeamObj) (bid v i : ℕ) :
    getBeam (setBeamIndex beams bid v) i =
      if bid = i ∧ bid < beams.length then
        { getBeam beams bid with index := some v }
      else getBeam beams i := by
  unfold getBeam setBeamIndex
  exact getD_set beams bid i _ _

lemma length_setNodeIndex (nodes : List NodeObj) (nid v : ℕ) :
    (setNodeIndex nodes nid v).length = nodes.length := by
  unfold setNodeIndex; exact List.length_set nodes _ _

lemma length_setBeamIndex (beams : List BeamObj) (bid v : ℕ) :
    (setBeamIndex beams bid v).length = beams.length := by
  unfold setBeamIndex; exact List.length_set beams _ _

/-- The invariant of the second indexing pass relative to the initial
heaps: heap sizes fixed; only `index` fields written; indices present
initially are preserved verbatim; and any index granted to an initially
unindexed node/beam agrees with the dictionary at its coordinate key. -/
def IdxInv (s : LatticeState) (st : IdxState) : Prop :=
  st.nodes.length = s.nodes.length ∧
  st.beams.length = s.beams.length ∧
  (∀ i, sameButIndexN (getNode s.nodes i) (getNode st.nodes i)) ∧
  (∀ i, sameButIndexB (getBeam s.beams i) (getBeam st.beams i)) ∧
  (∀ i v, (getNode s.nodes i).index = some v →
    (getNode st.nodes i).index = some v) ∧
  (∀ i v, (getBeam s.beams i).index = some v →
    (getBeam st.beams i).index = some v) ∧
  (∀ i v, (getNode s.nodes i).index = none →
    (getNode st.nodes i).index = some v →
    dictLookup st.maps.nodeIndexed (nodeKey (getNode s.nodes i)) = some v) ∧
  (∀ i v, (getBeam s.beams i).index = none →
    (getBeam st.beams i).index = some v →
    dictLookup st.maps.beamIndexed
      (beamKeyN s.nodes (getBeam s.beams i)) = some v)

lemma idxInv_init (s : LatticeState) :
    IdxInv s ⟨s.nodes, s.beams, passOne s⟩ := by
  refine ⟨rfl, rfl, fun i => sameButIndexN_refl _, fun i => sameButIndexB_refl _,
    fun i v h => h, fun i v h => h, fun i v h0 h1 => ?_, fun i v h0 h1 => ?_⟩
  · rw [h0] at h1; cases h1
  · rw [h0] at h1; cases h1

lemma beamKeyN_of_inv {s : LatticeState} {st : IdxState}
    (hinv : IdxInv s st) (bid : ℕ) :
    beamKeyN st.nodes (getBeam st.beams bid) =
      beamKeyN s.nodes (getBeam s.beams bid) := by
  obtain ⟨-, -, hn, hb, -⟩ := hinv
  have hb' := hb bid
  unfold beamKeyN
  rw [hb']
  have h1 := nodeKey_sameButIndexN (hn (getBeam s.beams bid).point1)
  have h2 := nodeKey_sameButIndexN (hn (getBeam s.beams bid).point2)
  simp only []
  rw [h1, h2]

lemma idxInv_pass2Node {s : LatticeState} {st : IdxState} (nid : ℕ)
    (hinv : IdxInv s st) : IdxInv s (pass2Node st nid) := by
  obtain ⟨hln, hlb, hfn, hfb, hpn, hpb, hmn, hmb⟩ := hinv
  unfold pass2Node
  by_cases hidx : (getNode st.nodes nid).index = none
  · rw [if_pos hidx]
    cases hdl : dictLookup st.maps.nodeIndexed (nodeKey (getNode st.nodes nid)) with
    | none =>
      simp only []
      refine ⟨by simpa [length_setNodeIndex] using hln, hlb, ?_, hfb, ?_, hpb,
        ?_, ?_⟩
      · intro i
        rw [getNode_setNodeIndex]
        by_cases hc : nid = i ∧ nid < st.nodes.length
        · rw [if_pos hc]
          rcases hc with ⟨rfl, _⟩
          exact sameButIndexN_update (hfn nid) _
        · rw [if_neg hc]; exact hfn i
      · intro i v hv
        rw [getNode_setNodeIndex]
        by_cases hc : nid = i ∧ nid < st.nodes.length
        · rcases hc with ⟨rfl, _⟩
          exact absurd (hpn nid v hv) (by simp [hidx])
        · rw [if_neg hc]; exact hpn i v hv
      · intro i v h0 h1
        rw [getNode_setNodeIndex] at h1
        have hkey : nodeKey (getNode st.nodes nid) =
            nodeKey (getNode s.nodes nid) := nodeKey_sameButIndexN (hfn nid)
        by_cases hc : nid = i ∧ nid < st.nodes.length
        · rcases hc with ⟨rfl, hlt⟩
          rw [if_pos ⟨rfl, hlt⟩] at h1
          simp only [] at h1
          injection h1 with h1
          subst h1
          rw [← hkey, dictLookup_insert_self]
        · rw [if_neg hc] at h1
          have := hmn i v h0 h1
          by_cases hkk : nodeKey (getNode st.nodes nid) =
              nodeKey (getNode s.nodes i)
          · rw [hkk] at hdl
            rw [hdl] at this
            cases this
          · rw [dictLookup_insert_ne _ _ _ _ hkk]
            exact this
      · intro i v h0 h1
        exact hmb i v h0 h1
    | some v =>
      simp only []
      refine ⟨by simpa [length_setNodeIndex] using hln, hlb, ?_, hfb, ?_, hpb,
        ?_, fun i w h0 h1 => hmb i w h0 h1⟩
      · intro i
        rw [getNode_setNodeIndex]
        by_cases hc : nid = i ∧ nid < st.nodes.length
        · rw [if_pos hc]
          rcases hc with ⟨rfl, _⟩
          exact sameButIndexN_update (hfn nid) _
        · rw [if_neg hc]; exact hfn i
      · intro i w hv
        rw [getNode_setNodeIndex]
        by_cases hc : nid = i ∧ nid < st.nodes.length
        · rcases hc with ⟨rfl, _⟩
          exact absurd (hpn nid w hv) (by simp [hidx])
        · rw [if_neg hc]; exact hpn i w hv
      · intro i w h0 h1
        rw [getNode_setNodeIndex] at h1
        have hkey : nodeKey (getNode st.nodes nid) =
            nodeKey (getNode s.nodes nid) := nodeKey_sameButIndexN (hfn nid)
        by_cases hc : nid = i ∧ nid < st.nodes.length
        · rcases hc with ⟨rfl, hlt⟩
          rw [if_pos ⟨rfl, hlt⟩] at h1
          simp only [] at h1
          injection h1 with h1
          subst h1
          rw [← hkey]
          exact hdl
        · rw [if_neg hc] at h1
          exact hmn i w h0 h1
  · rw [if_neg hidx]
    exact ⟨hln, hlb, hfn, hfb, hpn, hpb, hmn, hmb⟩

lemma idxInv_pass2BeamStep {s : LatticeState} {st : IdxState} (bid : ℕ)
    (hinv : IdxInv s st) : IdxInv s (pass2BeamStep st bid) := by
  unfold pass2BeamStep
  simp only []
  obtain ⟨hln, hlb, hfn, hfb, hpn, hpb, hmn, hmb⟩ := hinv
  by_cases hidx : (getBeam st.beams bid).index = none
  · rw [if_pos hidx]
    have hkey : beamKeyN st.nodes (getBeam st.beams bid) =
        beamKeyN s.nodes (getBeam s.beams bid) :=
      beamKeyN_of_inv ⟨hln, hlb, hfn, hfb, hpn, hpb, hmn, hmb⟩ bid
    cases hdl : dictLookup st.maps.beamIndexed
        (beamKeyN st.nodes (getBeam st.beams bid)) with
    | none =>
      simp only []
      refine ⟨hln, by simpa [length_setBeamIndex] using hlb, hfn, ?_, hpn,
        ?_, fun i v h0 h1 => hmn i v h0 h1, ?_⟩
      · intro i
        rw [getBeam_setBeamIndex]
        by_cases hc : bid = i ∧ bid < st.beams.length
        · rw [if_pos hc]
          rcases hc with ⟨rfl, _⟩
          exact sameButIndexB_update (hfb bid) _
        · rw [if_neg hc]; exact hfb i
      · intro i v hv
        rw [getBeam_setBeamIndex]
        by_cases hc : bid = i ∧ bid < st.beams.length
        · rcases hc with ⟨rfl, _⟩
          exact absurd (hpb bid v hv) (by simp [hidx])
        · rw [if_neg hc]; exact hpb i v hv
      · intro i v h0 h1
        rw [getBeam_setBeamIndex] at h1
        by_cases hc : bid = i ∧ bid < st.beams.length
        · rcases hc with ⟨rfl, hlt⟩
          rw [if_pos ⟨rfl, hlt⟩] at h1
          simp only [] at h1
          injection h1 with h1
          subst h1
          rw [← hkey, dictLookup_insert_self]
        · rw [if_neg hc] at h1
          have := hmb i v h0 h1
          by_cases hkk : beamKeyN st.nodes (getBeam st.beams bid) =
              beamKeyN s.nodes (getBeam s.beams i)
          · rw [hkk] at hdl
            rw [hdl] at this
            cases this
          · rw [dictLookup_insert_ne _ _ _ _ hkk]
            exact this
    | some v =>
      simp only []
      refine ⟨hln, by simpa [length_setBeamIndex] using hlb, hfn, ?_, hpn,
        ?_, fun i w h0 h1 => hmn i w h0 h1, ?_⟩
      · intro i
        rw [getBeam_setBeamIndex]
        by_cases hc : bid = i ∧ bid < st.beams.length
        · rw [if_pos hc]
          rcases hc with ⟨rfl, _⟩
          exact sameButIndexB_update (hfb bid) _
        · rw [if_neg hc]; exact hfb i
      · intro i w hv
        rw [getBeam_setBeamIndex]
        by_cases hc : bid = i ∧ bid < st.beams.length
        · rcases hc with ⟨rfl, _⟩
          exact absurd (hpb bid w hv) (by simp [hidx])
        · rw [if_neg hc]; exact hpb i w hv
      · intro i w h0 h1
        rw [getBeam_setBeamIndex] at h1
        by_cases hc : bid = i ∧ bid < st.beams.length
        · rcases hc with ⟨rfl, hlt⟩
          rw [if_pos ⟨rfl, hlt⟩] at h1
          simp only [] at h1
          injection h1 with h1
          subst h1
          rw [← hkey]
          exact hdl
        · rw [if_neg hc] at h1
          exact hmb i w h0 h1
  · rw [if_neg hidx]
    exact ⟨hln, hlb, hfn, hfb, hpn, hpb, hmn, hmb⟩

lemma idxInv_pass2Beam {s : LatticeState} {st : IdxState} (bid : ℕ)
    (hinv : IdxInv s st) : IdxInv s (pass2Beam st bid) := by
  unfold pass2Beam
  exact idxInv_pass2Node _ (idxInv_pass2Node _ (idxInv_pass2BeamStep bid hinv))

/-- The second pass maintains the invariant from start to finish. -/
lemma idxInv_passTwo (s : LatticeState) : IdxInv s (passTwo s) := by
  unfold passTwo
  exact foldl_inv _ _ _ (idxInv_init s)
    fun st bid _ hinv => idxInv_pass2Beam bid hinv

lemma pass2Node_beams (st : IdxState) (nid : ℕ) :
    (pass2Node st nid).beams = st.beams := by
  unfold pass2Node
  by_cases hidx : (getNode st.nodes nid).index = none
  · rw [if_pos hidx]
    cases dictLookup st.maps.nodeIndexed (nodeKey (getNode st.nodes nid)) <;> rfl
  · rw [if_neg hidx]

lemma pass2Node_nodes_length (st : IdxState) (nid : ℕ) :
    (pass2Node st nid).nodes.length = st.nodes.length := by
  unfold pass2Node
  by_cases hidx : (getNode st.nodes nid).index = none
  · rw [if_pos hidx]
    cases dictLookup st.maps.nodeIndexed (nodeKey (getNode st.nodes nid)) <;>
      simp [length_setNodeIndex]
  · rw [if_neg hidx]

lemma pass2Node_ne_none_mono (st : IdxState) (nid i : ℕ)
    (h : (getNode st.nodes i).index ≠ none) :
    (getNode (pass2Node st nid).nodes i).index ≠ none := by
  unfold pass2Node
  by_cases hidx : (getNode st.nodes nid).index = none
  · rw [if_pos hidx]
    cases dictLookup st.maps.nodeIndexed (nodeKey (getNode st.nodes nid)) with
    | none =>
      simp only [getNode_setNodeIndex]
      by_cases hc : nid = i ∧ nid < st.nodes.length
      · rw [if_pos hc]; simp
      · rw [if_neg hc]; exact h
    | some v =>
      simp only [getNode_setNodeIndex]
      by_cases hc : nid = i ∧ nid < st.nodes.length
      · rw [if_pos hc]; simp
      · rw [if_neg hc]; exact h
  · rw [if_neg hidx]; exact h

lemma pass2Node_establishes (st : IdxState) (nid : ℕ)
    (hlt : nid < st.nodes.length) :
    (getNode (pass2Node st nid).nodes nid).index ≠ none := by
  unfold pass2Node
  by_cases hidx : (getNode st.nodes nid).index = none
  · rw [if_pos hidx]
    cases dictLookup st.maps.nodeIndexed (nodeKey (getNode st.nodes nid)) with
    | none => simp [getNode_setNodeIndex, hlt]
    | some v => simp [getNode_setNodeIndex, hlt]
  · rw [if_neg hidx]; exact hidx

lemma pass2BeamStep_nodes (st : IdxState) (bid : ℕ) :
    (pass2BeamStep st bid).nodes = st.nodes := by
  unfold pass2BeamStep
  by_cases hidx : (getBeam st.beams bid).index = none
  · rw [if_pos hidx]
    cases dictLookup st.maps.beamIndexed
      (beamKeyN st.nodes (getBeam st.beams bid)) <;> rfl
  · rw [if_neg hidx]

lemma pass2BeamStep_beams_length (st : IdxState) (bid : ℕ) :
    (pass2BeamStep st bid).beams.length = st.beams.length := by
  unfold pass2BeamStep
  by_cases hidx : (getBeam st.beams bid).index = none
  · rw [if_pos hidx]
    cases dictLookup st.maps.beamIndexed
      (beamKeyN st.nodes (getBeam st.beams bid)) <;>
      simp [length_setBeamIndex]
  · rw [if_neg hidx]

lemma pass2BeamStep_point_ids (st : IdxState) (bid i : ℕ) :
    (getBeam (pass2BeamStep st bid).beams i).point1 =
      (getBeam st.beams i).point1 ∧
    (getBeam (pass2BeamStep st bid).beams i).point2 =
      (getBeam st.beams i).point2 := by
  unfold pass2BeamStep
  by_cases hidx : (getBeam st.beams bid).index = none
  · rw [if_pos hidx]
    cases dictLookup st.maps.beamIndexed
        (beamKeyN st.nodes (getBeam st.beams bid)) with
    | none =>
      by_cases hc : bid = i ∧ bid < st.beams.length
      · obtain ⟨rfl, hl⟩ := hc
        simp [getBeam_setBeamIndex, hl]
      · simp [getBeam_setBeamIndex, if_neg hc]
    | some v =>
      by_cases hc : bid = i ∧ bid < st.beams.length
      · obtain ⟨rfl, hl⟩ := hc
        simp [getBeam_setBeamIndex, hl]
      · simp [getBeam_setBeamIndex, if_neg hc]
  · rw [if_neg hidx]
    exact ⟨rfl, rfl⟩

lemma pass2BeamStep_ne_none_mono (st : IdxState) (bid i : ℕ)
    (h : (getBeam st.beams i).index ≠ none) :
    (getBeam (pass2BeamStep st bid).beams i).index ≠ none := by
  unfold pass2BeamStep
  by_cases hidx : (getBeam st.beams bid).index = none
  · rw [if_pos hidx]
    cases dictLookup st.maps.beamIndexed
        (beamKeyN st.nodes (getBeam st.beams bid)) with
    | none =>
      simp only [getBeam_setBeamIndex]
      by_cases hc : bid = i ∧ bid < st.beams.length
      · rw [if_pos hc]; simp
      · rw [if_neg hc]; exact h
    | some v =>
      simp only [getBeam_setBeamIndex]
      by_cases hc : bid = i ∧ bid < st.beams.length
      · rw [if_pos hc]; simp
      · rw [if_neg hc]; exact h
  · rw [if_neg hidx]; exact h

lemma pass2BeamStep_establishes (st : IdxState) (bid : ℕ)
    (hlt : bid < st.beams.length) :
    (getBeam (pass2BeamStep st bid).beams bid).index ≠ none := by
  unfold pass2BeamStep
  by_cases hidx : (getBeam st.beams bid).index = none
  · rw [if_pos hidx]
    cases dictLookup st.maps.beamIndexed
        (beamKeyN st.nodes (getBeam st.beams bid)) with
    | none => simp [getBeam_setBeamIndex, hlt]
    | some v => simp [getBeam_setBeamIndex, hlt]
  · rw [if_neg hidx]; exact hidx

lemma pass2Beam_ne_none_mono (st : IdxState) (bid i j : ℕ)
    (hn : (getNode st.nodes i).index ≠ none)
    (hb : (getBeam st.beams j).index ≠ none) :
    (getNode (pass2Beam st bid).nodes i).index ≠ none ∧
    (getBeam (pass2Beam st bid).beams j).index ≠ none := by
  unfold pass2Beam
  constructor
  · apply pass2Node_ne_none_mono
    apply pass2Node_ne_none_mono
    rw [pass2BeamStep_nodes]
    exact hn
  · rw [pass2Node_beams, pass2Node_beams]
    exact pass2BeamStep_ne_none_mono st bid j hb

/-- One `pass2Beam` step leaves the processed beam and both its endpoints
indexed. -/
lemma pass2Beam_establishes (st : IdxState) (bid : ℕ)
    (hbid : bid < st.beams.length)
    (hp1 : (getBeam st.beams bid).point1 < st.nodes.length)
    (hp2 : (getBeam st.beams bid).point2 < st.nodes.length) :
    (getBeam (pass2Beam st bid).beams bid).index ≠ none ∧
    (getNode (pass2Beam st bid).nodes (getBeam st.beams bid).point1).index ≠ none ∧
    (getNode (pass2Beam st bid).nodes (getBeam st.beams bid).point2).index ≠ none := by
  unfold pass2Beam
  simp only []
  refine ⟨?_, ?_, ?_⟩
  · rw [pass2Node_beams, pass2Node_beams]
    exact pass2BeamStep_establishes st bid hbid
  · apply pass2Node_ne_none_mono
    apply pass2Node_establishes
    rw [pass2BeamStep_nodes]
    exact hp1
  · apply pass2Node_establishes
    rw [pass2Node_nodes_length, pass2BeamStep_nodes]
    exact hp2

/-- After the whole second pass, every traversed beam and both its
endpoints carry an index. -/
lemma passTwo_assigned (s : LatticeState) (hWF : WellFormed s) :
    ∀ bid ∈ beamTraversal s,
      (getBeam (passTwo s).beams bid).index ≠ none ∧
      (getNode (passTwo s).nodes (getBeam s.beams bid).point1).index ≠ none ∧
      (getNode (passTwo s).nodes (getBeam s.beams bid).point2).index ≠ none := by
  intro bid hmem
  obtain ⟨hbl, hp1, hp2⟩ := hWF bid hmem
  obtain ⟨l1, l2, hsplit⟩ := List.append_of_mem hmem
  unfold passTwo
  rw [hsplit, List.foldl_append, List.foldl_cons]
  have hmid : IdxInv s (List.foldl pass2Beam ⟨s.nodes, s.beams, passOne s⟩ l1) :=
    foldl_inv _ _ _ (idxInv_init s) fun st a _ h => idxInv_pass2Beam a h
  set stMid := List.foldl pass2Beam ⟨s.nodes, s.beams, passOne s⟩ l1 with hmidDef
  obtain ⟨hln, hlb, hfn, hfb, -⟩ := hmid
  have hpt1 : (getBeam stMid.beams bid).point1 = (getBeam s.beams bid).point1 := by
    rw [hfb bid]
  have hpt2 : (getBeam stMid.beams bid).point2 = (getBeam s.beams bid).point2 := by
    rw [hfb bid]
  have hest := pass2Beam_establishes stMid bid (by rw [hlb]; exact hbl)
    (by rw [hln, hpt1]; exact hp1) (by rw [hln, hpt2]; exact hp2)
  rw [hpt1, hpt2] at hest
  refine foldl_inv
    (P := fun st : IdxState => (getBeam st.beams bid).index ≠ none ∧
      (getNode st.nodes (getBeam s.beams bid).point1).index ≠ none ∧
      (getNode st.nodes (getBeam s.beams bid).point2).index ≠ none)
    pass2Beam l2 _ hest fun st a _ h =>
    ⟨(pass2Beam_ne_none_mono st a (getBeam s.beams bid).point1 bid h.2.1 h.1).2,
     (pass2Beam_ne_none_mono st a (getBeam s.beams bid).point1 bid h.2.1 h.1).1,
     (pass2Beam_ne_none_mono st a (getBeam s.beams bid).point2 bid h.2.2 h.1).1⟩

/-- **C8.**  Re-running `defineBeamNodeIndex` never reassigns an existing
index: every `node.index` and `beam.index` that was not `None` before the
call keeps its value; an element whose index changed started as `None`;
every traversed beam and endpoint ends up indexed; and coordinate-identical
duplicates that started unindexed receive the same (already-mapped)
index. -/
theorem defineBeamNodeIndex_no_reassign (s : LatticeState)
    (hWF : WellFormed s) :
    (∀ i v, (getNode s.nodes i).index = some v →
      (getNode (defineBeamNodeIndex s).nodes i).index = some v) ∧
    (∀ i v, (getBeam s.beams i).index = some v →
      (getBeam (defineBeamNodeIndex s).beams i).index = some v) ∧
    (∀ i, (getNode (defineBeamNodeIndex s).nodes i).index ≠
        (getNode s.nodes i).index → (getNode s.nodes i).index = none) ∧
    (∀ i, (getBeam (defineBeamNodeIndex s).beams i).index ≠
        (getBeam s.beams i).index → (getBeam s.beams i).index = none) ∧
    (∀ bid ∈ beamTraversal s,
      (getBeam (defineBeamNodeIndex s).beams bid).index ≠ none ∧
      (getNode (defineBeamNodeIndex s).nodes
        (getBeam s.beams bid).point1).index ≠ none ∧
      (getNode (defineBeamNodeIndex s).nodes
        (getBeam s.beams bid).point2).index ≠ none) ∧
    (∀ i j, IsEndpoint s i → IsEndpoint s j →
      (getNode s.nodes i).index = none → (getNode s.nodes j).index = none →
      nodeKey (getNode s.nodes i) = nodeKey (getNode s.nodes j) →
      (getNode (defineBeamNodeIndex s).nodes i).index =
        (getNode (defineBeamNodeIndex s).nodes j).index) ∧
    (∀ i j, i ∈ beamTraversal s → j ∈ beamTraversal s →
      (getBeam s.beams i).index = none → (getBeam s.beams j).index = none →
      beamKeyN s.nodes (getBeam s.beams i) =
        beamKeyN s.nodes (getBeam s.beams j) →
      (getBeam (defineBeamNodeIndex s).beams i).index =
        (getBeam (defineBeamNodeIndex s).beams j).index) := by
  obtain ⟨hln, hlb, hfn, hfb, hpn, hpb, hmn, hmb⟩ := idxInv_passTwo s
  have hassigned := passTwo_assigned s hWF
  have hnodes : (defineBeamNodeIndex s).nodes = (passTwo s).nodes := rfl
  have hbeams : (defineBeamNodeIndex s).beams = (passTwo s).beams := rfl
  rw [hnodes, hbeams]
  refine ⟨hpn, hpb, ?_, ?_, hassigned, ?_, ?_⟩
  · intro i hne
    cases h : (getNode s.nodes i).index with
    | none => rfl
    | some v => exact absurd (hpn i v h) (by rw [h] at hne; exact hne)
  · intro i hne
    cases h : (getBeam s.beams i).index with
    | none => rfl
    | some v => exact absurd (hpb i v h) (by rw [h] at hne; exact hne)
  · intro i j hei hej h0i h0j hkey
    have hi : (getNode (passTwo s).nodes i).index ≠ none := by
      obtain ⟨bid, hmem, hcase⟩ := hei
      have := (hassigned bid hmem).2
      rcases hcase with h | h <;> rw [← h]
      · exact this.1
      · exact this.2
    have hj : (getNode (passTwo s).nodes j).index ≠ none := by
      obtain ⟨bid, hmem, hcase⟩ := hej
      have := (hassigned bid hmem).2
      rcases hcase with h | h <;> rw [← h]
      · exact this.1
      · exact this.2
    cases hvi : (getNode (passTwo s).nodes i).index with
    | none => exact absurd hvi hi
    | some vi =>
      cases hvj : (getNode (passTwo s).nodes j).index with
      | none => exact absurd hvj hj
      | some vj =>
        have hli := hmn i vi h0i hvi
        have hlj := hmn j vj h0j hvj
        rw [hkey, hlj] at hli
        injection hli with hli
        rw [hli]
  · intro i j hmi hmj h0i h0j hkey
    have hi := (hassigned i hmi).1
    have hj := (hassigned j hmj).1
    cases hvi : (getBeam (passTwo s).beams i).index with
    | none => exact absurd hvi hi
    | some vi =>
      cases hvj : (getBeam (passTwo s).beams j).index with
      | none => exact absurd hvj hj
      | some vj =>
        have hli := hmb i vi h0i hvi
        have hlj := hmb j vj h0j hvj
        rw [hkey, hlj] at hli
        injection hli with hli
        rw [hli]

/-- A small lattice heap: one cell, two beams sharing node 0; node 0 is
already indexed (index 5), nodes 1 and 2 are coordinate-identical
duplicates with no index. -/
def idxWitnessState : LatticeState :=
  { nodes := [{ mkPoint 0 0 0 with index := some 5 }, mkPoint 1 0 0,
      mkPoint 1 0 0]
    beams := [{ defaultBeam with point1 := 0, point2 := 1 },
      { defaultBeam with point1 := 0, point2 := 2 }]
    cells := [{ defaultCell with beams := [0, 1] }] }

/-- Witness for C8 on `idxWitnessState`. -/
theorem defineBeamNodeIndex_no_reassign_witness :
    (∀ i v, (getNode idxWitnessState.nodes i).index = some v →
      (getNode (defineBeamNodeIndex idxWitnessState).nodes i).index = some v) ∧
    (∀ i v, (getBeam idxWitnessState.beams i).index = some v →
      (getBeam (defineBeamNodeIndex idxWitnessState).beams i).index = some v) ∧
    (∀ i, (getNode (defineBeamNodeIndex idxWitnessState).nodes i).index ≠
        (getNode idxWitnessState.nodes i).index →
      (getNode idxWitnessState.nodes i).index = none) ∧
    (∀ i, (getBeam (defineBeamNodeIndex idxWitnessState).beams i).index ≠
        (getBeam idxWitnessState.beams i).index →
      (getBeam idxWitnessState.beams i).index = none) ∧
    (∀ bid ∈ beamTraversal idxWitnessState,
      (getBeam (defineBeamNodeIndex idxWitnessState).beams bid).index ≠ none ∧
      (getNode (defineBeamNodeIndex idxWitnessState).nodes
        (getBeam idxWitnessState.beams bid).point1).index ≠ none ∧
      (getNode (defineBeamNodeIndex idxWitnessState).nodes
        (getBeam idxWitnessState.beams bid).point2).index ≠ none) ∧
    (∀ i j, IsEndpoint idxWitnessState i → IsEndpoint idxWitnessState j →
      (getNode idxWitnessState.nodes i).index = none →
      (getNode idxWitnessState.nodes j).index = none →
      nodeKey (getNode idxWitnessState.nodes i) =
        nodeKey (getNode idxWitnessState.nodes j) →
      (getNode (defineBeamNodeIndex idxWitnessState).nodes i).index =
        (getNode (defineBeamNodeIndex idxWitnessState).nodes j).index) ∧
    (∀ i j, i ∈ beamTraversal idxWitnessState →
      j ∈ beamTraversal idxWitnessState →
      (getBeam idxWitnessState.beams i).index = none →
      (getBeam idxWitnessState.beams j).index = none →
      beamKeyN idxWitnessState.nodes (getBeam idxWitnessState.beams i) =
        beamKeyN idxWitnessState.nodes (getBeam idxWitnessState.beams j) →
      (getBeam (defineBeamNodeIndex idxWitnessState).beams i).index =
        (getBeam (defineBeamNodeIndex idxWitnessState).beams j).index) :=
  defineBeamNodeIndex_no_reassign idxWitnessState (by unfold WellFormed; decide)

/-! ## `Lattice.defineNodeIndexBoundary` (Lattice.py, lines 1931–1950) -/

/-- Modelled from the spec: `Cell.getCellBoundaryBox` is code of this
repository that is not among the provided source files (only its callers
are, e.g. `defineNodeIndexBoundary` and `getRelativeBoundaryBox`).  Per the
spec, "a Cell's boundary box is derived purely from its origin and size";
consistently with `Cell.getPointOnSurface`'s `surface_map` and the box
arguments spelled out in `Cell.getNodeOrderToSimulate`, it is
`[xMin, xMax, yMin, yMax, zMin, zMax] = [origin, origin + size]` per
axis. -/
def getCellBoundaryBox (c : CellObj) : ℚ × ℚ × ℚ × ℚ × ℚ × ℚ :=
  (c.coordinateCell.1, c.coordinateCell.1 + c.cellSize.1,
   c.coordinateCell.2.1, c.coordinateCell.2.1 + c.cellSize.2.1,
   c.coordinateCell.2.2, c.coordinateCell.2.2 + c.cellSize.2.2)

/-- The traversal of `defineNodeIndexBoundary`: each cell's beams paired
with that cell's boundary box. -/
def boundaryTraversal (s : LatticeState) : List ((ℚ × ℚ × ℚ × ℚ × ℚ × ℚ) × ℕ) :=
  (s.cells.map fun c => c.beams.map fun bid => (getCellBoundaryBox c, bid)).flatten

/-- Mutable state of the boundary-index pass: the node heap, the
`nodeAlreadyIndexed` dict and `IndexCounter`. -/
structure BndState where
  nodes : List NodeObj
  nodeAlreadyIndexed : Dict Vec3 ℕ
  indexCounter : ℕ
deriving Repr

/-- One endpoint visit: recompute and store the local tag against the
cell's box, and, when it is nonempty, give the node the boundary index
recorded for its coordinates, or a fresh one. -/
def bndNode (box : ℚ × ℚ × ℚ × ℚ × ℚ × ℚ) (st : BndState) (nid : ℕ) :
    BndState :=
  let n := getNode st.nodes nid
  let localTag := tagPointNode n box
  if localTag ≠ [] then
    match dictLookup st.nodeAlreadyIndexed (nodeKey n) with
    | some v =>
      { st with
        nodes := st.nodes.set nid
          ({ n with localTag := localTag, indexBoundary := some v }) }
    | none =>
      { st with
        nodes := st.nodes.set nid
          ({ n with localTag := localTag
                    indexBoundary := some st.indexCounter })
        nodeAlreadyIndexed := dictInsert st.nodeAlreadyIndexed (nodeKey n)
          st.indexCounter
        indexCounter := st.indexCounter + 1 }
  else
    { st with nodes := st.nodes.set nid ({ n with localTag := localTag }) }

/-- One beam occurrence of the boundary pass: both endpoints in order,
against the owning cell's box. -/
def bndBeam (beams : List BeamObj) (st : BndState)
    (p : (ℚ × ℚ × ℚ × ℚ × ℚ × ℚ) × ℕ) : BndState :=
  let b := getBeam beams p.2
  bndNode p.1 (bndNode p.1 st b.point1) b.point2

/-- `Lattice.defineNodeIndexBoundary`.  The source also stores
`maxIndexBoundary = IndexCounter - 1`; no claim reads it, so only the node
heap is kept. -/
def defineNodeIndexBoundary (s : LatticeState) : LatticeState :=
  { s with
    nodes := ((boundaryTraversal s).foldl (bndBeam s.beams)
      ⟨s.nodes, [], 0⟩).nodes }

/-- `cur` differs from `orig` at most in `localTag` and `indexBoundary`. -/
def sameButTagIb (orig cur : NodeObj) : Prop :=
  cur = { orig with localTag := cur.localTag
                    indexBoundary := cur.indexBoundary }

lemma sameButTagIb_refl (n : NodeObj) : sameButTagIb n n := rfl

lemma sameButTagIb_update {orig cur : NodeObj} (h : sameButTagIb orig cur)
    (t : List ℤ) (o : Option ℕ) :
    sameButTagIb orig { cur with localTag := t, indexBoundary := o } := by
  unfold sameButTagIb at h ⊢
  rw [h]

lemma sameButTagIb_updateTag {orig cur : NodeObj} (h : sameButTagIb orig cur)
    (t : List ℤ) : sameButTagIb orig { cur with localTag := t } := by
  unfold sameButTagIb at h ⊢
  rw [h]

lemma nodeKey_sameButTagIb {orig cur : NodeObj} (h : sameButTagIb orig cur) :
    nodeKey cur = nodeKey orig := by
  rw [h]; rfl

/-- Frame invariant of the boundary pass: sizes fixed and only
`localTag`/`indexBoundary` written. -/
def BndFrame (nodes0 : List NodeObj) (st : BndState) : Prop :=
  st.nodes.length = nodes0.length ∧
  ∀ i, sameButTagIb (getNode nodes0 i) (getNode st.nodes i)

lemma getNode_set (nodes : List NodeObj) (nid i : ℕ) (n : NodeObj) :
    getNode (nodes.set nid n) i =
      if nid = i ∧ nid < nodes.length then n else getNode nodes i := by
  unfold getNode
  exact getD_set nodes nid i _ _

lemma bndNode_length (box : ℚ × ℚ × ℚ × ℚ × ℚ × ℚ) (st : BndState) (nid : ℕ) :
    (bndNode box st nid).nodes.length = st.nodes.length := by
  unfold bndNode
  by_cases ht : tagPointNode (getNode st.nodes nid) box ≠ []
  · rw [if_pos ht]
    cases dictLookup st.nodeAlreadyIndexed (nodeKey (getNode st.nodes nid)) <;>
      simp [List.length_set]
  · rw [if_neg ht]
    simp [List.length_set]

lemma bndFrame_bndNode {nodes0 : List NodeObj} {st : BndState}
    (box : ℚ × ℚ × ℚ × ℚ × ℚ × ℚ) (nid : ℕ) (h : BndFrame nodes0 st) :
    BndFrame nodes0 (bndNode box st nid) := by
  obtain ⟨hl, hf⟩ := h
  refine ⟨by rw [bndNode_length, hl], ?_⟩
  intro i
  unfold bndNode
  by_cases ht : tagPointNode (getNode st.nodes nid) box ≠ []
  · rw [if_pos ht]
    cases dictLookup st.nodeAlreadyIndexed (nodeKey (getNode st.nodes nid)) with
    | some v =>
      simp only [getNode_set]
      by_cases hc : nid = i ∧ nid < st.nodes.length
      · rw [if_pos hc]
        rcases hc with ⟨rfl, -⟩
        exact sameButTagIb_update (hf nid) _ _
      · rw [if_neg hc]; exact hf i
    | none =>
      simp only [getNode_set]
      by_cases hc : nid = i ∧ nid < st.nodes.length
      · rw [if_pos hc]
        rcases hc with ⟨rfl, -⟩
        exact sameButTagIb_update (hf nid) _ _
      · rw [if_neg hc]; exact hf i
  · rw [if_neg ht]
    simp only [getNode_set]
    by_cases hc : nid = i ∧ nid < st.nodes.length
    · rw [if_pos hc]
      rcases hc with ⟨rfl, -⟩
      exact sameButTagIb_updateTag (hf nid) _
    · rw [if_neg hc]; exact hf i

lemma bndFrame_bndBeam {nodes0 : List NodeObj} {st : BndState}
    (beams : List BeamObj) (p : (ℚ × ℚ × ℚ × ℚ × ℚ × ℚ) × ℕ)
    (h : BndFrame nodes0 st) : BndFrame nodes0 (bndBeam beams st p) :=
  bndFrame_bndNode _ _ (bndFrame_bndNode _ _ h)

lemma bndFrame_final (s : LatticeState) :
    BndFrame s.nodes ((boundaryTraversal s).foldl (bndBeam s.beams)
      ⟨s.nodes, [], 0⟩) :=
  foldl_inv _ _ _ ⟨rfl, fun i => sameButTagIb_refl _⟩
    fun st p _ h => bndFrame_bndBeam s.beams p h

/-- Consistency of a node with the boundary dict: when its stored local
tag is nonempty, its boundary index is assigned and agrees with the dict
at its coordinate key. -/
def BndGood (st : BndState) (i : ℕ) : Prop :=
  (getNode st.nodes i).localTag ≠ [] →
    ∃ v, (getNode st.nodes i).indexBoundary = some v ∧
      dictLookup st.nodeAlreadyIndexed (nodeKey (getNode st.nodes i)) = some v

lemma bndNode_establishes (box : ℚ × ℚ × ℚ × ℚ × ℚ × ℚ) (st : BndState)
    (nid : ℕ) (hlt : nid < st.nodes.length) : BndGood (bndNode box st nid) nid := by
  have hcc : nid = nid ∧ nid < st.nodes.length := ⟨rfl, hlt⟩
  unfold bndNode BndGood
  by_cases ht : tagPointNode (getNode st.nodes nid) box ≠ []
  · rw [if_pos ht]
    cases hdl : dictLookup st.nodeAlreadyIndexed
        (nodeKey (getNode st.nodes nid)) with
    | some v =>
      intro _
      rw [getNode_set, if_pos hcc]
      exact ⟨v, rfl, hdl⟩
    | none =>
      intro _
      rw [getNode_set, if_pos hcc]
      exact ⟨st.indexCounter, rfl, dictLookup_insert_self _ _ _⟩
  · rw [if_neg ht]
    intro habs
    rw [getNode_set, if_pos hcc] at habs
    push_neg at ht
    exact absurd ht habs

lemma bndNode_preserves (box : ℚ × ℚ × ℚ × ℚ × ℚ × ℚ) (st : BndState)
    (nid i : ℕ) (hne : nid ≠ i) (h : BndGood st i) :
    BndGood (bndNode box st nid) i := by
  have hcc : ¬ (nid = i ∧ nid < st.nodes.length) := fun hc => hne hc.1
  unfold bndNode BndGood
  by_cases ht : tagPointNode (getNode st.nodes nid) box ≠ []
  · rw [if_pos ht]
    cases hdl : dictLookup st.nodeAlreadyIndexed
        (nodeKey (getNode st.nodes nid)) with
    | some v =>
      intro htag
      rw [getNode_set, if_neg hcc] at htag ⊢
      exact h htag
    | none =>
      intro htag
      rw [getNode_set, if_neg hcc] at htag ⊢
      obtain ⟨v, hv, hl⟩ := h htag
      refine ⟨v, hv, ?_⟩
      by_cases hkk : nodeKey (getNode st.nodes nid) =
          nodeKey (getNode st.nodes i)
      · rw [hkk] at hdl
        rw [hdl] at hl
        cases hl
      · rw [dictLookup_insert_ne _ _ _ _ hkk]
        exact hl
  · rw [if_neg ht]
    intro htag
    rw [getNode_set, if_neg hcc] at htag ⊢
    exact h htag

lemma bndBeam_establishes (beams : List BeamObj) (st : BndState)
    (p : (ℚ × ℚ × ℚ × ℚ × ℚ × ℚ) × ℕ) (i : ℕ)
    (hi : i = (getBeam beams p.2).point1 ∨ i = (getBeam beams p.2).point2)
    (hlt1 : (getBeam beams p.2).point1 < st.nodes.length)
    (hlt2 : (getBeam beams p.2).point2 < st.nodes.length) :
    BndGood (bndBeam beams st p) i := by
  unfold bndBeam
  by_cases h2 : i = (getBeam beams p.2).point2
  · subst h2
    exact bndNode_establishes _ _ _ (by rw [bndNode_length]; exact hlt2)
  · rcases hi with h1 | h1
    · subst h1
      exact bndNode_preserves _ _ _ _ (fun he => h2 he.symm)
        (bndNode_establishes _ _ _ hlt1)
    · exact absurd h1 h2

lemma bndBeam_preserves (beams : List BeamObj) (st : BndState)
    (p : (ℚ × ℚ × ℚ × ℚ × ℚ × ℚ) × ℕ) (i : ℕ)
    (hne1 : i ≠ (getBeam beams p.2).point1)
    (hne2 : i ≠ (getBeam beams p.2).point2) (h : BndGood st i) :
    BndGood (bndBeam beams st p) i := by
  unfold bndBeam
  exact bndNode_preserves _ _ _ _ (fun he => hne2 he.symm)
    (bndNode_preserves _ _ _ _ (fun he => hne1 he.symm) h)

lemma boundaryTraversal_mem_intro (s : LatticeState) (bid : ℕ)
    (h : bid ∈ beamTraversal s) :
    ∃ box, (box, bid) ∈ boundaryTraversal s := by
  unfold beamTraversal at h
  obtain ⟨l, hl, hbid⟩ := List.mem_flatten.mp h
  obtain ⟨c, hc, rfl⟩ := List.mem_map.mp hl
  refine ⟨getCellBoundaryBox c, ?_⟩
  unfold boundaryTraversal
  exact List.mem_flatten.mpr ⟨c.beams.map fun b => (getCellBoundaryBox c, b),
    List.mem_map.mpr ⟨c, hc, rfl⟩, List.mem_map.mpr ⟨bid, hbid, rfl⟩⟩

lemma boundaryTraversal_mem_elim (s : LatticeState)
    (box : ℚ × ℚ × ℚ × ℚ × ℚ × ℚ) (bid : ℕ)
    (h : (box, bid) ∈ boundaryTraversal s) : bid ∈ beamTraversal s := by
  unfold boundaryTraversal at h
  obtain ⟨l, hl, hmem⟩ := List.mem_flatten.mp h
  obtain ⟨c, hc, rfl⟩ := List.mem_map.mp hl
  obtain ⟨b, hb, heq⟩ := List.mem_map.mp hmem
  unfold beamTraversal
  refine List.mem_flatten.mpr ⟨c.beams, List.mem_map.mpr ⟨c, hc, rfl⟩, ?_⟩
  have : b = bid := congrArg Prod.snd heq
  rw [← this]
  exact hb

/-- After the whole boundary pass, every endpoint node whose final local
tag is nonempty has its boundary index set and in agreement with the final
dict at its coordinate key. -/
lemma bnd_final_good (s : LatticeState) (hWF : WellFormed s) (i : ℕ)
    (hi : IsEndpoint s i) :
    BndGood ((boundaryTraversal s).foldl (bndBeam s.beams)
      ⟨s.nodes, [], 0⟩) i := by
  obtain ⟨bid0, hmem0, hcase0⟩ := hi
  obtain ⟨box0, hmem0b⟩ := boundaryTraversal_mem_intro s bid0 hmem0
  have hex : ∃ p ∈ boundaryTraversal s,
      i = (getBeam s.beams p.2).point1 ∨ i = (getBeam s.beams p.2).point2 :=
    ⟨(box0, bid0), hmem0b, by
      rcases hcase0 with h | h
      · exact Or.inl h.symm
      · exact Or.inr h.symm⟩
  obtain ⟨l1, p, l2, hsplit, hp, hnone⟩ := exists_last_split
    (fun p => i = (getBeam s.beams p.2).point1 ∨
      i = (getBeam s.beams p.2).point2) hex
  rw [hsplit, List.foldl_append, List.foldl_cons]
  have hframe : BndFrame s.nodes
      (List.foldl (bndBeam s.beams) ⟨s.nodes, [], 0⟩ l1) :=
    foldl_inv _ _ _ ⟨rfl, fun j => sameButTagIb_refl _⟩
      fun st q _ h => bndFrame_bndBeam s.beams q h
  have hpmem : p ∈ boundaryTraversal s := by
    rw [hsplit]
    exact List.mem_append.mpr (Or.inr (List.mem_cons_self _ _))
  obtain ⟨-, hp1, hp2⟩ := hWF p.2 (boundaryTraversal_mem_elim s p.1 p.2
    (by simpa using hpmem))
  have hest := bndBeam_establishes s.beams
    (List.foldl (bndBeam s.beams) ⟨s.nodes, [], 0⟩ l1) p i hp
    (by rw [hframe.1]; exact hp1) (by rw [hframe.1]; exact hp2)
  refine foldl_inv (P := fun st => BndGood st i) (bndBeam s.beams) l2 _ hest
    fun st q hq h => ?_
  have hnq := hnone q hq
  push_neg at hnq
  exact bndBeam_preserves s.beams st q i hnq.1 hnq.2 h

lemma dbni_beamTraversal (s : LatticeState) :
    beamTraversal (defineBeamNodeIndex s) = beamTraversal s := rfl

lemma dbni_point_ids (s : LatticeState) (bid : ℕ) :
    (getBeam (defineBeamNodeIndex s).beams bid).point1 =
      (getBeam s.beams bid).point1 ∧
    (getBeam (defineBeamNodeIndex s).beams bid).point2 =
      (getBeam s.beams bid).point2 := by
  have h := (idxInv_passTwo s).2.2.2.1 bid
  constructor
  · show (getBeam (passTwo s).beams bid).point1 = _
    rw [h]
  · show (getBeam (passTwo s).beams bid).point2 = _
    rw [h]

lemma dbni_nodeKey (s : LatticeState) (i : ℕ) :
    nodeKey (getNode (defineBeamNodeIndex s).nodes i) =
      nodeKey (getNode s.nodes i) :=
  nodeKey_sameButIndexN ((idxInv_passTwo s).2.2.1 i)

lemma dbni_wellFormed (s : LatticeState) (hWF : WellFormed s) :
    WellFormed (defineBeamNodeIndex s) := by
  intro bid hmem
  rw [dbni_beamTraversal] at hmem
  obtain ⟨h1, h2, h3⟩ := hWF bid hmem
  have hlb : (defineBeamNodeIndex s).beams.length = s.beams.length :=
    (idxInv_passTwo s).2.1
  have hln : (defineBeamNodeIndex s).nodes.length = s.nodes.length :=
    (idxInv_passTwo s).1
  obtain ⟨hp1, hp2⟩ := dbni_point_ids s bid
  exact ⟨by rw [hlb]; exact h1, by rw [hp1, hln]; exact h2,
    by rw [hp2, hln]; exact h3⟩

lemma dbni_isEndpoint (s : LatticeState) (i : ℕ) :
    IsEndpoint (defineBeamNodeIndex s) i ↔ IsEndpoint s i := by
  unfold IsEndpoint
  rw [dbni_beamTraversal]
  constructor
  · rintro ⟨bid, hmem, hcase⟩
    obtain ⟨hp1, hp2⟩ := dbni_point_ids s bid
    refine ⟨bid, hmem, ?_⟩
    rwa [hp1, hp2] at hcase
  · rintro ⟨bid, hmem, hcase⟩
    obtain ⟨hp1, hp2⟩ := dbni_point_ids s bid
    refine ⟨bid, hmem, ?_⟩
    rwa [hp1, hp2]

/-- **C1 (amended).**  On a lattice whose node indices are all initially
unassigned — as in the constructor pipeline, where `defineBeamNodeIndex`
runs on freshly built cells — after `defineBeamNodeIndex` followed by
`defineNodeIndexBoundary`, any two endpoint node objects with identical
coordinates carry the same (assigned) global index, and any two such nodes
whose final local tags are nonempty carry the same (assigned) boundary
index.  Without the freshness precondition the global-index statement
fails, see the counterexample. -/
theorem fresh_indexing_dedup_invariant (s : LatticeState)
    (hWF : WellFormed s)
    (hFresh : ∀ i, (getNode s.nodes i).index = none) :
    (∀ i j, IsEndpoint s i → IsEndpoint s j →
      nodeKey (getNode s.nodes i) = nodeKey (getNode s.nodes j) →
      (getNode (defineNodeIndexBoundary (defineBeamNodeIndex s)).nodes i).index =
        (getNode (defineNodeIndexBoundary (defineBeamNodeIndex s)).nodes j).index ∧
      (getNode (defineNodeIndexBoundary (defineBeamNodeIndex s)).nodes i).index
        ≠ none) ∧
    (∀ i j, IsEndpoint s i → IsEndpoint s j →
      nodeKey (getNode s.nodes i) = nodeKey (getNode s.nodes j) →
      (getNode (defineNodeIndexBoundary (defineBeamNodeIndex s)).nodes i).localTag
        ≠ [] →
      (getNode (defineNodeIndexBoundary (defineBeamNodeIndex s)).nodes j).localTag
        ≠ [] →
      (getNode (defineNodeIndexBoundary
          (defineBeamNodeIndex s)).nodes i).indexBoundary =
        (getNode (defineNodeIndexBoundary
          (defineBeamNodeIndex s)).nodes j).indexBoundary ∧
      (getNode (defineNodeIndexBoundary
          (defineBeamNodeIndex s)).nodes i).indexBoundary ≠ none) := by
  have hWFm : WellFormed (defineBeamNodeIndex s) := dbni_wellFormed s hWF
  have hBF : BndFrame (defineBeamNodeIndex s).nodes
      ((boundaryTraversal (defineBeamNodeIndex s)).foldl
        (bndBeam (defineBeamNodeIndex s).beams)
        ⟨(defineBeamNodeIndex s).nodes, [], 0⟩) :=
    bndFrame_final (defineBeamNodeIndex s)
  have hIdxF : ∀ k,
      (getNode (defineNodeIndexBoundary (defineBeamNodeIndex s)).nodes k).index
        = (getNode (defineBeamNodeIndex s).nodes k).index := by
    intro k
    have h := hBF.2 k
    show (getNode ((boundaryTraversal (defineBeamNodeIndex s)).foldl
      (bndBeam (defineBeamNodeIndex s).beams)
      ⟨(defineBeamNodeIndex s).nodes, [], 0⟩).nodes k).index = _
    rw [h]
  obtain ⟨hln, hlb, hfn, hfb, hpn, hpb, hmn, hmb⟩ := idxInv_passTwo s
  have hassigned := passTwo_assigned s hWF
  constructor
  · intro i j hi hj hkey
    rw [hIdxF i, hIdxF j]
    have hni : (getNode (passTwo s).nodes i).index ≠ none := by
      obtain ⟨bid, hmem, hcase⟩ := hi
      have := (hassigned bid hmem).2
      rcases hcase with h | h <;> rw [← h]
      · exact this.1
      · exact this.2
    have hnj : (getNode (passTwo s).nodes j).index ≠ none := by
      obtain ⟨bid, hmem, hcase⟩ := hj
      have := (hassigned bid hmem).2
      rcases hcase with h | h <;> rw [← h]
      · exact this.1
      · exact this.2
    cases hvi : (getNode (passTwo s).nodes i).index with
    | none => exact absurd hvi hni
    | some vi =>
      cases hvj : (getNode (passTwo s).nodes j).index with
      | none => exact absurd hvj hnj
      | some vj =>
        have hli := hmn i vi (hFresh i) hvi
        have hlj := hmn j vj (hFresh j) hvj
        rw [hkey, hlj] at hli
        injection hli with hli
        refine ⟨?_, ?_⟩
        · show (getNode (passTwo s).nodes i).index =
            (getNode (passTwo s).nodes j).index
          rw [hvi, hvj, hli]
        · show (getNode (passTwo s).nodes i).index ≠ none
          rw [hvi]
          simp
  · intro i j hi hj hkey hti htj
    have hgi := bnd_final_good (defineBeamNodeIndex s) hWFm i
      ((dbni_isEndpoint s i).mpr hi)
    have hgj := bnd_final_good (defineBeamNodeIndex s) hWFm j
      ((dbni_isEndpoint s j).mpr hj)
    obtain ⟨vi, hvi, hli⟩ := hgi hti
    obtain ⟨vj, hvj, hlj⟩ := hgj htj
    have hk1 : nodeKey (getNode ((boundaryTraversal
        (defineBeamNodeIndex s)).foldl (bndBeam (defineBeamNodeIndex s).beams)
        ⟨(defineBeamNodeIndex s).nodes, [], 0⟩).nodes i) =
        nodeKey (getNode s.nodes i) := by
      rw [nodeKey_sameButTagIb (hBF.2 i), dbni_nodeKey]
    have hk2 : nodeKey (getNode ((boundaryTraversal
        (defineBeamNodeIndex s)).foldl (bndBeam (defineBeamNodeIndex s).beams)
        ⟨(defineBeamNodeIndex s).nodes, [], 0⟩).nodes j) =
        nodeKey (getNode s.nodes j) := by
      rw [nodeKey_sameButTagIb (hBF.2 j), dbni_nodeKey]
    rw [hk1, hkey] at hli
    rw [hk2] at hlj
    rw [hlj] at hli
    injection hli with hli
    constructor
    · show (getNode ((boundaryTraversal (defineBeamNodeIndex s)).foldl
        (bndBeam (defineBeamNodeIndex s).beams)
        ⟨(defineBeamNodeIndex s).nodes, [], 0⟩).nodes i).indexBoundary = _
      rw [hvi]
      show _ = (getNode ((boundaryTraversal (defineBeamNodeIndex s)).foldl
        (bndBeam (defineBeamNodeIndex s).beams)
        ⟨(defineBeamNodeIndex s).nodes, [], 0⟩).nodes j).indexBoundary
      rw [hvj, hli]
    · show (getNode ((boundaryTraversal (defineBeamNodeIndex s)).foldl
        (bndBeam (defineBeamNodeIndex s).beams)
        ⟨(defineBeamNodeIndex s).nodes, [], 0⟩).nodes i).indexBoundary ≠ none
      rw [hvi]
      simp

/-- A fresh two-beam lattice heap: node 2 duplicates node 0's coordinates,
all indices unassigned; one unit cell at the origin. -/
def freshWitnessState : LatticeState :=
  { nodes := [mkPoint 0 0 0, mkPoint 1 0 0, mkPoint 0 0 0]
    beams := [{ defaultBeam with point1 := 0, point2 := 1 },
      { defaultBeam with point1 := 2, point2 := 1 }]
    cells := [{ defaultCell with beams := [0, 1] }] }

/-- Witness for C1 on `freshWitnessState`. -/
theorem fresh_indexing_dedup_invariant_witness :
    (∀ i j, IsEndpoint freshWitnessState i → IsEndpoint freshWitnessState j →
      nodeKey (getNode freshWitnessState.nodes i) =
        nodeKey (getNode freshWitnessState.nodes j) →
      (getNode (defineNodeIndexBoundary
          (defineBeamNodeIndex freshWitnessState)).nodes i).index =
        (getNode (defineNodeIndexBoundary
          (defineBeamNodeIndex freshWitnessState)).nodes j).index ∧
      (getNode (defineNodeIndexBoundary
          (defineBeamNodeIndex freshWitnessState)).nodes i).index ≠ none) ∧
    (∀ i j, IsEndpoint freshWitnessState i → IsEndpoint freshWitnessState j →
      nodeKey (getNode freshWitnessState.nodes i) =
        nodeKey (getNode freshWitnessState.nodes j) →
      (getNode (defineNodeIndexBoundary
          (defineBeamNodeIndex freshWitnessState)).nodes i).localTag ≠ [] →
      (getNode (defineNodeIndexBoundary
          (defineBeamNodeIndex freshWitnessState)).nodes j).localTag ≠ [] →
      (getNode (defineNodeIndexBoundary
          (defineBeamNodeIndex freshWitnessState)).nodes i).indexBoundary =
        (getNode (defineNodeIndexBoundary
          (defineBeamNodeIndex freshWitnessState)).nodes j).indexBoundary ∧
      (getNode (defineNodeIndexBoundary
          (defineBeamNodeIndex freshWitnessState)).nodes i).indexBoundary
        ≠ none) :=
  fresh_indexing_dedup_invariant freshWitnessState
    (by unfold WellFormed; decide)
    (by intro i; rcases i with _ | _ | _ | i <;> rfl)

/-- A partially pre-indexed lattice heap: node 0 carries index 7; node 2
is an unindexed duplicate of node 0's coordinates. -/
def preindexedState : LatticeState :=
  { nodes := [{ mkPoint 0 0 0 with index := some 7 }, mkPoint 1 0 0,
      mkPoint 0 0 0, mkPoint 1 0 0]
    beams := [{ defaultBeam with point1 := 0, point2 := 1 },
      { defaultBeam with point1 := 2, point2 := 3 }]
    cells := [{ defaultCell with beams := [0, 1] }] }

/-- The boundary pass writes only `localTag`/`indexBoundary`, so it
preserves every global index. -/
lemma dnib_index_preserved (m : LatticeState) (k : ℕ) :
    (getNode (defineNodeIndexBoundary m).nodes k).index =
      (getNode m.nodes k).index := by
  have h := (bndFrame_final m).2 k
  show (getNode ((boundaryTraversal m).foldl (bndBeam m.beams)
    ⟨m.nodes, [], 0⟩).nodes k).index = _
  rw [h]

/-- **C1 counterexample.**  On `preindexedState` — reachable because
`defineBeamNodeIndex` is rerun on partially indexed lattices, e.g. from
`setBeamNodeMod` — the passes leave two coordinate-identical endpoint
nodes with different global indices (7 and 0): the first pass files the
pre-indexed node under a fresh counter value instead of its actual index,
and the duplicate inherits that counter value. -/
theorem preindexed_duplicate_nodes_diverge :
    nodeKey (getNode preindexedState.nodes 0) =
      nodeKey (getNode preindexedState.nodes 2) ∧
    IsEndpoint preindexedState 0 ∧ IsEndpoint preindexedState 2 ∧
    (getNode (defineNodeIndexBoundary
      (defineBeamNodeIndex preindexedState)).nodes 0).index = some 7 ∧
    (getNode (defineNodeIndexBoundary
      (defineBeamNodeIndex preindexedState)).nodes 2).index = some 0 := by
  refine ⟨by decide, ⟨0, by decide, Or.inl rfl⟩, ⟨1, by decide, Or.inl rfl⟩,
    ?_, ?_⟩
  · rw [dnib_index_preserved]
    decide
  · rw [dnib_index_preserved]
    decide

/-! ## `Lattice.defineCellNeighbours` (Lattice.py, lines 495–553)

The non-periodic path (`self.periodicity` false), as the claim under test
fixes periodicity disabled: the boundary box is then always
`getLatticeBoundaryBox() = [xMin, xMax, yMin, yMax, zMin, zMax]`, passed in
here as a parameter along with the three cell sizes.  The neighbour offsets
are `±cell_size` along each axis, added to the integer grid position
`posCell`. -/

/-- `cell_dict = {tuple(cell.posCell): cell for cell in self.cells}`; cells
are stored by their index in `cells`, later entries overwriting earlier
ones as in a Python dict comprehension. -/
def cellDict (cells : List CellObj) : Dict (ℚ × ℚ × ℚ) ℕ :=
  cells.enum.foldl (fun m p => dictInsert m p.2.posCell p.1) []

/-- The six `neighbor_offsets`. -/
def neighbourOffsets (cx cy cz : ℚ) : List (ℚ × ℚ × ℚ) :=
  [(-cx, 0, 0), (cx, 0, 0), (0, -cy, 0), (0, cy, 0), (0, 0, -cz), (0, 0, cz)]

/-- The non-periodic in-range test against the lattice boundary box. -/
def inBoundaryBox (bb : ℚ × ℚ × ℚ × ℚ × ℚ × ℚ) (p : ℚ × ℚ × ℚ) : Prop :=
  bb.1 ≤ p.1 ∧ p.1 ≤ bb.2.1 ∧ bb.2.2.1 ≤ p.2.1 ∧ p.2.1 ≤ bb.2.2.2.1 ∧
    bb.2.2.2.2.1 ≤ p.2.2 ∧ p.2.2 ≤ bb.2.2.2.2.2

instance (bb : ℚ × ℚ × ℚ × ℚ × ℚ × ℚ) (p : ℚ × ℚ × ℚ) :
    Decidable (inBoundaryBox bb p) := by
  unfold inBoundaryBox; infer_instance

/-- `Lattice.defineCellNeighbours` with periodicity disabled.  Each cell's
`neighbourCells` is reset and refilled; `cell.addCellNeighbour(...)` —
code of this repository not among the provided sources, modelled from the
spec ("compute up to 6 face-adjacent neighbor Cells") and its call site as
appending the found cell — records the dict hit. -/
def cellNeighbourFold (cell_dict : Dict (ℚ × ℚ × ℚ) ℕ)
    (offs : List (ℚ × ℚ × ℚ)) (boundaryBox : ℚ × ℚ × ℚ × ℚ × ℚ × ℚ)
    (c : CellObj) : List ℕ :=
  offs.foldl
    (fun acc off =>
      let raw := (c.posCell.1 + off.1, c.posCell.2.1 + off.2.1,
        c.posCell.2.2 + off.2.2)
      if inBoundaryBox boundaryBox raw then
        match dictLookup cell_dict raw with
        | some ci => acc ++ [ci]
        | none => acc
      else acc) []

def defineCellNeighbours (s : LatticeState) (cellSizeX cellSizeY cellSizeZ : ℚ)
    (boundaryBox : ℚ × ℚ × ℚ × ℚ × ℚ × ℚ) : LatticeState :=
  let cell_dict := cellDict s.cells
  { s with cells := s.cells.map fun c =>
      { c with
        neighbourCells := cellNeighbourFold cell_dict
          (neighbourOffsets cellSizeX cellSizeY cellSizeZ) boundaryBox c } }

/-- Three cells in a row at grid positions (0,0,0), (1,0,0), (2,0,0). -/
def rowState : LatticeState :=
  { nodes := [], beams := [], cells := [
      { defaultCell with posCell := (0, 0, 0) },
      { defaultCell with posCell := (1, 0, 0) },
      { defaultCell with posCell := (2, 0, 0) }] }

/-- **C5 (code bug).**  With periodicity disabled, cell size 2 along x and
the lattice box [0,6]x[0,1]x[0,1], the cell at grid position (0,0,0) gets
exactly the cell at grid position (2,0,0) as neighbour — two grid steps
away, not face-adjacent — while the face-adjacent cell at (1,0,0) gets no
neighbours at all: the code adds the physical `cell_size` to the integer
grid position instead of stepping by 1. -/
theorem neighbour_step_uses_cell_size_failing_input :
    ((defineCellNeighbours rowState 2 1 1 (0, 6, 0, 1, 0, 1)).cells.getD 0
      defaultCell).neighbourCells = [2] ∧
    ((defineCellNeighbours rowState 2 1 1 (0, 6, 0, 1, 0, 1)).cells.getD 1
      defaultCell).neighbourCells = [] ∧
    (rowState.cells.getD 2 defaultCell).posCell = (2, 0, 0) ∧
    (rowState.cells.getD 1 defaultCell).posCell = (1, 0, 0) := by
  refine ⟨?_, ?_, by decide, by decide⟩ <;>
  · norm_num [defineCellNeighbours, cellNeighbourFold, cellDict,
      neighbourOffsets, inBoundaryBox, dictLookup, dictInsert, rowState,
      defaultCell, List.enum, List.enumFrom, List.foldl, List.find?, List.map]
    decide

/-! ### `Cell.buildCouplingOperator` (`Cell.py`) -/

/-- `self.originalTags` as set in `Cell.__init__` (`Cell.py`): the 26
canonical region ids — 8 corners, 6 faces, 12 edges. -/
def cellOriginalTags : List ℤ :=
  [1000, 1001, 1002, 1003, 1004, 1005, 1006, 1007,
   10, 11, 12, 13, 14, 15,
   100, 101, 102, 103, 104, 105, 106, 107, 108, 109, 110, 111]

/-- The local `originalTags` list hard-coded inside
`Cell.buildCouplingOperator` (`Cell.py`): 8 corners and the 12 edges only;
the six face ids 10–15 are absent. -/
def couplingOriginalTags : List ℤ :=
  [1000, 1001, 1002, 1003, 1004, 1005, 1006, 1007,
   100, 101, 102, 103, 104, 105, 106, 107, 108, 109, 110, 111]

/-- Python `list.index(v)`: position of the first occurrence, `ValueError`
when the value is missing. -/
def pyListIndex (l : List ℤ) (v : ℤ) : Except String ℕ :=
  match l.findIdx? (fun t => t = v) with
  | some i => Except.ok i
  | none => Except.error "ValueError"

/-- Python `l[0]` on a tag list: `IndexError` when the list is empty. -/
def pyHeadTag (l : List ℤ) : Except String ℤ :=
  match l with
  | [] => Except.error "IndexError"
  | t :: _ => Except.ok t

/-- The `data`/`row`/`col`/`listBndNodes` accumulators of
`Cell.buildCouplingOperator`; `row` entries are the node's
`globalFreeDOFIndex[i]` values. -/
structure CouplingAcc where
  data : List ℕ
  row : List (Option ℕ)
  col : List ℕ
  listBndNodes : List ℕ
deriving DecidableEq, Repr

/-- Body of the `for point in [beam.point1, beam.point2]` loop of
`Cell.buildCouplingOperator`: a boundary node not yet in `listBndNodes`
contributes, per non-fixed DOF `i`, one unit entry at column
`originalTags.index(point.localTag[0]) * 6 + i` and row
`point.globalFreeDOFIndex[i]`.  `fixedDOF` is a 6-vector in the source, so
reading past its end cannot occur; `getD i 1` keeps the model total. -/
def couplingNodeStep (n : NodeObj) (acc : CouplingAcc) :
    Except String CouplingAcc :=
  match n.indexBoundary with
  | none => Except.ok acc
  | some ib =>
    if ib ∈ acc.listBndNodes then Except.ok acc
    else
      match pyHeadTag n.localTag with
      | Except.error e => Except.error e
      | Except.ok t =>
        match pyListIndex couplingOriginalTags t with
        | Except.error e => Except.error e
        | Except.ok localNodeIndex =>
          Except.ok ((List.range 6).foldl
            (fun a i =>
              if n.fixedDOF.getD i 1 = 0 then
                { a with
                  data := a.data ++ [1]
                  col := a.col ++ [localNodeIndex * 6 + i]
                  row := a.row ++ [n.globalFreeDOFIndex.getD i none] }
              else a)
            { acc with listBndNodes := acc.listBndNodes ++ [ib] })

/-- The `for beam in self.beams` loop of `Cell.buildCouplingOperator`:
endpoints visited in order `point1`, `point2`, a raised exception
short-circuiting the rest. -/
def couplingBeamStep (s : LatticeState) (acc : Except String CouplingAcc)
    (bid : ℕ) : Except String CouplingAcc :=
  match acc with
  | Except.error e => Except.error e
  | Except.ok a =>
    match couplingNodeStep (getNode s.nodes (getBeam s.beams bid).point1) a with
    | Except.error e => Except.error e
    | Except.ok a1 =>
      couplingNodeStep (getNode s.nodes (getBeam s.beams bid).point2) a1

/-- `Cell.buildCouplingOperator` (`Cell.py`): the COO triplets of `matB`
together with its shape `(nbFreeDOF, len(listBndNodes) * 6)`. -/
def buildCouplingOperator (s : LatticeState) (c : CellObj) (nbFreeDOF : ℕ) :
    Except String (CouplingAcc × ℕ × ℕ) :=
  match c.beams.foldl (couplingBeamStep s)
      (Except.ok { data := [], row := [], col := [], listBndNodes := [] }) with
  | Except.error e => Except.error e
  | Except.ok acc => Except.ok (acc, nbFreeDOF, acc.listBndNodes.length * 6)

/-- A one-cell lattice whose single boundary node sits on the x-min face:
local tag 10, one of the 26 canonical ids of `Cell.__init__`, with all six
DOFs free. -/
def faceTagState : LatticeState :=
  { nodes := [{ mkPoint 0 0 0 with
                localTag := [10]
                indexBoundary := some 0
                fixedDOF := [0, 0, 0, 0, 0, 0]
                globalFreeDOFIndex :=
                  [some 0, some 1, some 2, some 3, some 4, some 5] }]
    beams := [{ defaultBeam with point1 := 0, point2 := 0 }]
    cells := [{ defaultCell with beams := [0] }] }

/-- C7: the claim that `buildCouplingOperator` succeeds on every cell whose
boundary nodes carry local tags among the 26 canonical region ids is FALSE.
The method's local `originalTags` list omits the six face ids 10–15, so a
boundary node on a face — local tag 10, a member of `Cell.originalTags` —
makes `originalTags.index(...)` raise `ValueError`. -/
theorem coupling_operator_face_tag_raises :
    (10 : ℤ) ∈ cellOriginalTags ∧
    (10 : ℤ) ∉ couplingOriginalTags ∧
    (getNode faceTagState.nodes 0).localTag = [10] ∧
    buildCouplingOperator faceTagState (faceTagState.cells.getD 0 defaultCell)
      6 = Except.error "ValueError" := by
  refine ⟨by decide, by decide, rfl, rfl⟩

/-! ### `Lattice.applyAllConstraintsOnNodes` / `applyForceOnSurface`
(`Lattice.py`) -/

/-- Body of the `for val, DOFi in zip(value, DOF)` loop of
`Lattice.applyAllConstraintsOnNodes`: "Displacement" writes
`displacementValue[DOFi]` and calls `fixDOF([DOFi])` (which sets
`fixedDOF[DOFi] = 1`, `Point.py`); "Force" writes `appliedForce[DOFi]`. -/
def constraintDOFStep (ctype : String) (m : NodeObj) (vd : ℚ × ℕ) : NodeObj :=
  if ctype = "Displacement" then
    { m with
      displacementValue := m.displacementValue.set vd.2 vd.1
      fixedDOF := m.fixedDOF.set vd.2 1 }
  else if ctype = "Force" then
    { m with appliedForce := m.appliedForce.set vd.2 vd.1 }
  else m

/-- The full per-node DOF loop of `Lattice.applyAllConstraintsOnNodes`. -/
def constraintNodeUpdate (ctype : String) (value : List ℚ) (dof : List ℕ)
    (n : NodeObj) : NodeObj :=
  (value.zip dof).foldl (constraintDOFStep ctype) n

/-- One endpoint visit of the `for node in [beam.point1, beam.point2]`
loop: the node object is rewritten in place when its `indexBoundary` lies
in the matched set `indexBoundaryList`. -/
def applyConstraintNode (ctype : String) (value : List ℚ) (dof : List ℕ)
    (matched : List (Option ℕ)) (nodes : List NodeObj) (nid : ℕ) :
    List NodeObj :=
  if (getNode nodes nid).indexBoundary ∈ matched then
    nodes.set nid (constraintNodeUpdate ctype value dof (getNode nodes nid))
  else nodes

/-- `Lattice.applyAllConstraintsOnNodes` (`Lattice.py`).  The surface query
(`findPointOnLatticeSurface`) only selects existing Point objects, so the
model receives that point set as node references; the function collects
their `indexBoundary` values as `indexBoundaryList` and then runs the
triple `cell`/`beam`/`node` loop over all beam endpoints. -/
def applyAllConstraintsOnNodes (s : LatticeState) (pointSet : List ℕ)
    (value : List ℚ) (dof : List ℕ) (ctype : String) : LatticeState :=
  let matched := pointSet.map fun i => (getNode s.nodes i).indexBoundary
  { s with
    nodes := (beamTraversal s).foldl
      (fun nodes bid =>
        applyConstraintNode ctype value dof matched
          (applyConstraintNode ctype value dof matched nodes
            (getBeam s.beams bid).point1)
          (getBeam s.beams bid).point2)
      s.nodes }

/-- `Lattice.applyForceOnSurface` (`Lattice.py`): delegates to
`applyAllConstraintsOnNodes` with type "Force". -/
def applyForceOnSurface (s : LatticeState) (pointSet : List ℕ)
    (valueForce : List ℚ) (dof : List ℕ) : LatticeState :=
  applyAllConstraintsOnNodes s pointSet valueForce dof "Force"

/-- Only `appliedForce` may differ between `orig` and `cur`. -/
def sameButForce (orig cur : NodeObj) : Prop :=
  cur = { orig with appliedForce := cur.appliedForce }

lemma sameButForce_refl (n : NodeObj) : sameButForce n n := rfl

lemma sameButForce_trans {a b c : NodeObj} (hab : sameButForce a b)
    (hbc : sameButForce b c) : sameButForce a c := by
  unfold sameButForce at hab hbc ⊢
  rw [hbc, hab]

lemma indexBoundary_sameButForce {a b : NodeObj} (h : sameButForce a b) :
    b.indexBoundary = a.indexBoundary := by
  rw [h]

lemma fixedDOF_sameButForce {a b : NodeObj} (h : sameButForce a b) :
    b.fixedDOF = a.fixedDOF := by
  rw [h]

lemma displacementValue_sameButForce {a b : NodeObj} (h : sameButForce a b) :
    b.displacementValue = a.displacementValue := by
  rw [h]

/-- Frame of a "Force" constraint relative to the original node heap: node
count fixed; every node keeps all fields but `appliedForce`; unmatched
nodes are untouched; `appliedForce` entries at unlisted DOFs keep their
values. -/
def ForceFrame (s0 : List NodeObj) (matched : List (Option ℕ))
    (dof : List ℕ) (ns : List NodeObj) : Prop :=
  ns.length = s0.length ∧
  ∀ i,
    sameButForce (getNode s0 i) (getNode ns i) ∧
    ((getNode s0 i).indexBoundary ∉ matched →
      getNode ns i = getNode s0 i) ∧
    ∀ d, d ∉ dof →
      (getNode ns i).appliedForce.getD d 0 =
        (getNode s0 i).appliedForce.getD d 0

lemma constraintDOFStep_force (m : NodeObj) (vd : ℚ × ℕ) :
    constraintDOFStep "Force" m vd =
      { m with appliedForce := m.appliedForce.set vd.2 vd.1 } := by
  unfold constraintDOFStep
  rw [if_neg (by decide), if_pos rfl]

lemma constraintNodeUpdate_force_frame (value : List ℚ) (dof : List ℕ)
    (n : NodeObj) :
    sameButForce n (constraintNodeUpdate "Force" value dof n) ∧
    ∀ d, d ∉ dof →
      (constraintNodeUpdate "Force" value dof n).appliedForce.getD d 0 =
        n.appliedForce.getD d 0 := by
  unfold constraintNodeUpdate
  refine foldl_inv (P := fun m : NodeObj =>
      sameButForce n m ∧
      ∀ d, d ∉ dof → m.appliedForce.getD d 0 = n.appliedForce.getD d 0)
    (constraintDOFStep "Force") (value.zip dof) n
    ⟨sameButForce_refl n, fun _ _ => rfl⟩ ?_
  rintro m vd hvd ⟨hm, hd⟩
  rw [constraintDOFStep_force]
  refine ⟨sameButForce_trans hm rfl, ?_⟩
  intro d hdnot
  have h2 : vd.2 ∈ dof := (List.of_mem_zip hvd).2
  have hne : ¬ (vd.2 = d ∧ vd.2 < m.appliedForce.length) :=
    fun h => hdnot (h.1 ▸ h2)
  show (m.appliedForce.set vd.2 vd.1).getD d 0 = n.appliedForce.getD d 0
  rw [getD_set, if_neg hne]
  exact hd d hdnot

lemma applyConstraintNode_force_frame (value : List ℚ) (dof : List ℕ)
    (matched : List (Option ℕ)) (s0 ns : List NodeObj) (nid : ℕ)
    (hP : ForceFrame s0 matched dof ns) :
    ForceFrame s0 matched dof
      (applyConstraintNode "Force" value dof matched ns nid) := by
  obtain ⟨hlen, hall⟩ := hP
  unfold applyConstraintNode
  by_cases hmem : (getNode ns nid).indexBoundary ∈ matched
  · rw [if_pos hmem]
    refine ⟨by rw [List.length_set, hlen], ?_⟩
    intro i
    rw [getNode_set]
    by_cases hc : nid = i ∧ nid < ns.length
    · rw [if_pos hc]
      obtain ⟨rfl, hlt⟩ := hc
      obtain ⟨h1, h2, h3⟩ := hall nid
      obtain ⟨u1, u2⟩ := constraintNodeUpdate_force_frame value dof
        (getNode ns nid)
      refine ⟨sameButForce_trans h1 u1, ?_, ?_⟩
      · intro hnotm
        exfalso
        apply hnotm
        rwa [indexBoundary_sameButForce h1] at hmem
      · intro d hd
        rw [u2 d hd, h3 d hd]
    · rw [if_neg hc]
      exact hall i
  · rw [if_neg hmem]
    exact ⟨hlen, hall⟩

lemma applyAll_force_frame (s : LatticeState) (pointSet : List ℕ)
    (value : List ℚ) (dof : List ℕ) :
    ForceFrame s.nodes
      (pointSet.map fun i => (getNode s.nodes i).indexBoundary) dof
      (applyAllConstraintsOnNodes s pointSet value dof "Force").nodes := by
  unfold applyAllConstraintsOnNodes
  exact foldl_inv (P := ForceFrame s.nodes
      (pointSet.map fun i => (getNode s.nodes i).indexBoundary) dof)
    _ (beamTraversal s) s.nodes
    ⟨rfl, fun i => ⟨sameButForce_refl _, fun _ => rfl, fun _ _ => rfl⟩⟩
    (fun ns bid _ hP =>
      applyConstraintNode_force_frame value dof _ s.nodes _ _
        (applyConstraintNode_force_frame value dof _ s.nodes _ _ hP))

/-- C10: a "Force"-type constraint (`applyForceOnSurface`, i.e.
`applyAllConstraintsOnNodes` with type "Force") touches only the
`appliedForce` entries of matched boundary nodes at the listed DOFs: beams,
cells and node count are untouched, every node keeps its `fixedDOF`,
`displacementValue` and all fields other than `appliedForce`, nodes whose
`indexBoundary` is outside the matched set are untouched entirely, and
`appliedForce` entries at unlisted DOFs keep their values — force
application never fixes a degree of freedom. -/
theorem force_application_frame (s : LatticeState) (pointSet : List ℕ)
    (valueForce : List ℚ) (dof : List ℕ) :
    (applyForceOnSurface s pointSet valueForce dof).beams = s.beams ∧
    (applyForceOnSurface s pointSet valueForce dof).cells = s.cells ∧
    (applyForceOnSurface s pointSet valueForce dof).nodes.length =
      s.nodes.length ∧
    ∀ i,
      (getNode (applyForceOnSurface s pointSet valueForce dof).nodes
          i).fixedDOF = (getNode s.nodes i).fixedDOF ∧
      (getNode (applyForceOnSurface s pointSet valueForce dof).nodes
          i).displacementValue = (getNode s.nodes i).displacementValue ∧
      sameButForce (getNode s.nodes i)
        (getNode (applyForceOnSurface s pointSet valueForce dof).nodes i) ∧
      ((getNode s.nodes i).indexBoundary ∉
          pointSet.map (fun j => (getNode s.nodes j).indexBoundary) →
        getNode (applyForceOnSurface s pointSet valueForce dof).nodes i =
          getNode s.nodes i) ∧
      ∀ d, d ∉ dof →
        (getNode (applyForceOnSurface s pointSet valueForce dof).nodes
            i).appliedForce.getD d 0 =
          (getNode s.nodes i).appliedForce.getD d 0 := by
  unfold applyForceOnSurface
  obtain ⟨hlen, hall⟩ := applyAll_force_frame s pointSet valueForce dof
  refine ⟨rfl, rfl, hlen, ?_⟩
  intro i
  obtain ⟨h1, h2, h3⟩ := hall i
  exact ⟨fixedDOF_sameButForce h1, displacementValue_sameButForce h1,
    h1, h2, h3⟩

/-- Two boundary nodes joined by one beam; the point set holds only node
0, so node 1 is unmatched. -/
def forceFrameState : LatticeState :=
  { nodes := [{ mkPoint 0 0 0 with indexBoundary := some 0 },
              { mkPoint 1 0 0 with indexBoundary := some 1 }]
    beams := [{ defaultBeam with point1 := 0, point2 := 1 }]
    cells := [{ defaultCell with beams := [0] }] }

/-- A force of 5 on DOF 2 of the surface containing only node 0 leaves the
unmatched node 1 entirely untouched. -/
theorem force_application_frame_witness :
    (getNode forceFrameState.nodes 1).indexBoundary ∉
      [0].map (fun j => (getNode forceFrameState.nodes j).indexBoundary) ∧
    getNode (applyForceOnSurface forceFrameState [0] [5] [2]).nodes 1 =
      getNode forceFrameState.nodes 1 :=
  ⟨by decide,
    ((force_application_frame forceFrameState [0] [5] [2]).2.2.2 1).2.2.2.1
      (by decide)⟩

/-! ### `Cell.buildPreconditioner` and the assembly loop of
`Lattice.buildLUSchurComplement` (`Cell.py`, `Lattice.py`) -/

/-- Per-cell data of the preconditioner assembly: the coupling operator
`matB` (free DOF × local boundary DOF, as built by
`buildCouplingOperatorForEachCells`) and the reference Schur complement
`Sref` looked up for the cell's radius (`getSref_nearest`). -/
structure CellSchur (f : ℕ) where
  m : ℕ
  matB : Matrix (Fin f) (Fin m) ℚ
  sref : Matrix (Fin m) (Fin m) ℚ

/-- `Cell.buildPreconditioner` (`Cell.py`):
`self.matB @ SchurMatrix @ self.matB.transpose()`. -/
def buildPreconditioner {f : ℕ} (c : CellSchur f) :
    Matrix (Fin f) (Fin f) ℚ :=
  c.matB * c.sref * c.matB.transpose

/-- The accumulation loop of `Lattice.buildLUSchurComplement`
(`Lattice.py`): `globalSchurComplement` starts as the zero
`(freeDOF, freeDOF)` matrix and adds each cell's `buildPreconditioner`. -/
def assemblePreconditioner (f : ℕ) (cells : List (CellSchur f)) :
    Matrix (Fin f) (Fin f) ℚ :=
  cells.foldl (fun acc c => acc + buildPreconditioner c) 0

/-- C9: whenever every per-cell reference Schur matrix is symmetric, the
assembled global preconditioner `Σ B·Sref·Bᵀ` computed by
`buildPreconditioner` and accumulated in `buildLUSchurComplement` is a
symmetric matrix, for any coupling operators `B`. -/
theorem assembled_preconditioner_symmetric (f : ℕ)
    (cells : List (CellSchur f))
    (hsym : ∀ c ∈ cells, c.sref.transpose = c.sref) :
    (assemblePreconditioner f cells).transpose =
      assemblePreconditioner f cells := by
  have key : ∀ (l : List (CellSchur f)) (acc : Matrix (Fin f) (Fin f) ℚ),
      (∀ c ∈ l, c.sref.transpose = c.sref) → acc.transpose = acc →
      (l.foldl (fun a c => a + buildPreconditioner c) acc).transpose =
        l.foldl (fun a c => a + buildPreconditioner c) acc := by
    intro l
    induction l with
    | nil => exact fun acc _ hacc => hacc
    | cons c t ih =>
      intro acc hl hacc
      refine ih _ (fun d hd => hl d (List.mem_cons_of_mem _ hd)) ?_
      have hc := hl c (List.mem_cons_self _ _)
      simp only [Matrix.transpose_add, hacc, buildPreconditioner,
        Matrix.transpose_mul, Matrix.transpose_transpose, Matrix.mul_assoc,
        hc]
  exact key cells 0 hsym Matrix.transpose_zero

/-- A one-cell, one-DOF instance with the symmetric reference matrix
`(2)` and coupling operator `(3)`. -/
def schurWitnessCell : CellSchur 1 :=
  { m := 1, matB := Matrix.of ![![3]], sref := Matrix.of ![![2]] }

/-- The assembled preconditioner of the concrete one-cell instance is
symmetric. -/
theorem assembled_preconditioner_symmetric_witness :
    (assemblePreconditioner 1 [schurWitnessCell]).transpose =
      assemblePreconditioner 1 [schurWitnessCell] :=
  assembled_preconditioner_symmetric 1 [schurWitnessCell]
    (by
      intro c hc
      rw [List.mem_singleton] at hc
      subst hc
      ext i j
      fin_cases i <;> fin_cases j <;> rfl)
